import Mathlib

/-!
Verification development for the asset-gen-tool repository.

The repository is a multi-tenant CRUD API over a hierarchical document store
(Google Cloud Firestore).  The development below is a shallow embedding of

  * src/api/models.py   - the Pydantic entity models,
  * src/api/firebase.py - the FirestoreAccessor document-accessor layer,
  * src/api/index.py    - the FastAPI REST handlers,

together with an explicit model of the external document store as the spec
describes it (path-addressed documents, partial update with merge, a
transaction primitive applying a set of writes atomically, and a
server-assigned timestamp sentinel).

Modelling conventions:
  * datetimes are natural numbers (an abstract clock),
  * dynamic dictionary payloads (parameters, settings, metadata, ...) are
    association lists of strings; floats in concept_image_weights are
    modelled as integers since no code inspects them,
  * the store clock advances on every write, so server timestamps are
    monotone, as the spec assumes of the external store,
  * the possibility that the store aborts a transaction (optimistic
    concurrency) is modelled by an explicit abort flag passed to the
    transaction runner.
-/

namespace AssetGen

/-! ## Field values and documents -/

/-- Field values stored in a document.  vSentinel is the write-time
server-timestamp marker (firestore.SERVER_TIMESTAMP); the store replaces it
with its own clock value.  vNull models Python None inside full model dumps
(pydantic dict without exclude_none); serialized writes never contain it
because the accessor serializes with exclude_none=True.  vStyleGuide is the
nested StyleGuide mapping of models.py flattened into one constructor. -/
inductive Value where
  | vStr (s : String)
  | vInt (n : Int)
  | vBool (b : Bool)
  | vTime (t : Nat)
  | vSentinel
  | vNull
  | vStrList (xs : List String)
  | vDict (kvs : List (String × String))
  | vDictList (ds : List (List (String × String)))
  | vIntDict (kvs : List (String × Int))
  | vStyleGuide (markdown_text : String) (title : Option String)
      (last_edited_by : Option String) (last_edited_at : Option Nat)
  deriving Repr, DecidableEq

/-- A document is a finite field map, kept as an association list in
insertion order (Python dicts preserve insertion order). -/
abbrev Doc := List (String × Value)

/-- A storage path: alternating collection and document-id segments. -/
abbrev Path := List String

namespace Doc

/-- Look a key up in a document. -/
def find (k : String) : Doc → Option Value
  | [] => none
  | (k', v) :: rest => if k' = k then some v else find k rest

/-- Python dict assignment: overwrite the key in place when present,
append otherwise. -/
def set (k : String) (v : Value) : Doc → Doc
  | [] => [(k, v)]
  | (k', v') :: rest => if k' = k then (k, v) :: rest else (k', v') :: set k v rest

/-- Python dict pop: drop the key. -/
def erase (k : String) : Doc → Doc
  | [] => []
  | (k', v') :: rest => if k' = k then erase k rest else (k', v') :: erase k rest

/-- Python `key in dict`. -/
def hasKey (k : String) (d : Doc) : Bool := (d.find k).isSome

end Doc

/-- Resolve a write-time value at store clock t: the server substitutes its
clock for the sentinel and stores every other value as given. -/
def Value.resolve (t : Nat) : Value → Value
  | .vSentinel => .vTime t
  | v => v

/-- Resolve every field of a write payload at store clock t. -/
def Doc.resolve (t : Nat) (d : Doc) : Doc := d.map (fun kv => (kv.1, kv.2.resolve t))

/-- Merge an update payload into an existing document, field by field
(store-native partial update). -/
def Doc.merge (d : Doc) (u : Doc) : Doc := u.foldl (fun acc kv => acc.set kv.1 kv.2) d

/-! ## The document store

An explicit model of the external hierarchical document store: a map from
paths to documents, a server clock that advances on every write, and a
counter from which fresh document ids are generated. -/

/-- Errors surfaced by the accessor layer (firebase.py FirestoreError). -/
inductive FsError where
  | firestoreError (msg : String)
  deriving Repr, DecidableEq

structure Store where
  docs : List (Path × Doc)
  now : Nat
  counter : Nat
  deriving Repr, DecidableEq

namespace Store

/-- Read one document. -/
def getDoc (s : Store) (p : Path) : Option Doc :=
  (s.docs.find? (fun pd => pd.1 = p)).map (fun pd => pd.2)

/-- Replace the document at a path when present, append otherwise. -/
def putAssoc (p : Path) (d : Doc) : List (Path × Doc) → List (Path × Doc)
  | [] => [(p, d)]
  | (p', d') :: rest =>
    if p' = p then (p, d) :: rest else (p', d') :: putAssoc p d rest

/-- Atomic single-document write: sentinels resolve to the store clock and
the clock advances. -/
def setDoc (s : Store) (p : Path) (d : Doc) : Store :=
  { s with docs := putAssoc p (d.resolve s.now) s.docs, now := s.now + 1 }

/-- Store-native partial update: merge the resolved payload into the
existing document; updating a missing document is an error. -/
def updateDoc (s : Store) (p : Path) (u : Doc) : Except FsError Store :=
  match s.getDoc p with
  | none => .error (.firestoreError ("404 No document to update: " ++ String.intercalate "/" p))
  | some d =>
    .ok { s with docs := putAssoc p (d.merge (u.resolve s.now)) s.docs, now := s.now + 1 }

/-- Delete one document; deleting a missing document is not an error. -/
def deleteDoc (s : Store) (p : Path) : Store :=
  { s with docs := s.docs.filter (fun pd => !(pd.1 = p : Bool)) }

/-- Generate a fresh client-side document id (col.document() with no
argument generates an id on the client before any write happens).  The id
content is opaque to the code; any injective generator models it. -/
def autoId (n : Nat) : String :=
  String.mk (List.replicate (n + 1) 'd')

def freshId (s : Store) : String × Store :=
  (autoId s.counter, { s with counter := s.counter + 1 })

/-- All documents directly inside a collection, as (id, doc) pairs in
storage order. -/
def collection (s : Store) (col : Path) : List (String × Doc) :=
  s.docs.filterMap (fun pd =>
    if pd.1.dropLast = col then
      match pd.1.getLast? with
      | some i => some (i, pd.2)
      | none => none
    else none)

/-- The transaction primitive of the store: apply a buffered list of
document writes atomically.  The abort flag models the store aborting the
transaction (for example on an optimistic-concurrency conflict); an aborted
transaction leaves the store unchanged. -/
def runTransaction (s : Store) (abort : Bool) (writes : List (Path × Doc)) :
    Except FsError Store :=
  if abort then .error (.firestoreError "409 transaction aborted")
  else .ok (writes.foldl (fun st w => st.setDoc w.1 w.2) s)

end Store

/-! ## Simp toolkit for documents and the store -/

/-- Serialize one optional model field: dropped when none (pydantic
exclude_none), a single field otherwise. -/
def sfield (k : String) (f : α → Value) : Option α → Doc
  | none => []
  | some a => [(k, f a)]

@[simp] theorem find_nil (k : String) : Doc.find k [] = none := rfl

@[simp] theorem find_cons_self (k : String) (v : Value) (rest : Doc) :
    Doc.find k ((k, v) :: rest) = some v := by
  simp [Doc.find]

@[simp] theorem find_cons_ne (k k' : String) (h : k ≠ k') (v : Value) (rest : Doc) :
    Doc.find k' ((k, v) :: rest) = Doc.find k' rest := by
  simp [Doc.find, h]

@[simp] theorem find_append (k : String) (d1 d2 : Doc) :
    Doc.find k (d1 ++ d2) = (Doc.find k d1).or (Doc.find k d2) := by
  induction d1 with
  | nil => simp [Doc.find]
  | cons h t ih =>
    simp only [List.cons_append, Doc.find]
    split <;> simp [ih]

@[simp] theorem find_sfield_self (k : String) (f : α → Value) (x : Option α) :
    Doc.find k (sfield k f x) = x.map f := by
  cases x <;> simp [sfield, Doc.find]

@[simp] theorem find_sfield_ne (k k' : String) (h : k ≠ k') (f : α → Value) (x : Option α) :
    Doc.find k' (sfield k f x) = none := by
  cases x <;> simp [sfield, Doc.find, h]

@[simp] theorem erase_nil (k : String) : Doc.erase k [] = [] := rfl

@[simp] theorem erase_cons_self (k : String) (v : Value) (rest : Doc) :
    Doc.erase k ((k, v) :: rest) = Doc.erase k rest := by
  simp [Doc.erase]

@[simp] theorem erase_cons_ne (k k' : String) (h : k ≠ k') (v : Value) (rest : Doc) :
    Doc.erase k' ((k, v) :: rest) = (k, v) :: Doc.erase k' rest := by
  simp [Doc.erase, h]

@[simp] theorem erase_append (k : String) (d1 d2 : Doc) :
    Doc.erase k (d1 ++ d2) = Doc.erase k d1 ++ Doc.erase k d2 := by
  induction d1 with
  | nil => simp [Doc.erase]
  | cons h t ih =>
    simp only [List.cons_append, Doc.erase]
    split <;> simp [ih]

@[simp] theorem erase_sfield_self (k : String) (f : α → Value) (x : Option α) :
    Doc.erase k (sfield k f x) = [] := by
  cases x <;> simp [sfield, Doc.erase]

@[simp] theorem erase_sfield_ne (k k' : String) (h : k ≠ k') (f : α → Value) (x : Option α) :
    Doc.erase k' (sfield k f x) = sfield k f x := by
  cases x <;> simp [sfield, Doc.erase, h]

@[simp] theorem set_nil (k : String) (v : Value) : Doc.set k v [] = [(k, v)] := rfl

@[simp] theorem find_set_self (k : String) (v : Value) (d : Doc) :
    Doc.find k (Doc.set k v d) = some v := by
  induction d with
  | nil => simp [Doc.set, Doc.find]
  | cons hd t ih =>
    obtain ⟨k', v'⟩ := hd
    simp only [Doc.set]
    split
    · simp
    · rename_i hne
      simpa [Doc.find, hne] using ih

@[simp] theorem find_set_ne (k k' : String) (h : k ≠ k') (v : Value) (d : Doc) :
    Doc.find k' (Doc.set k v d) = Doc.find k' d := by
  induction d with
  | nil => simp [Doc.set, Doc.find, h]
  | cons hd t ih =>
    obtain ⟨k'', v''⟩ := hd
    simp only [Doc.set]
    split
    · rename_i heq
      subst heq
      simp [Doc.find, h]
    · rename_i hne
      by_cases hk : k'' = k'
      · subst hk
        simp [Doc.find]
      · simp [Doc.find, hk, ih]

@[simp] theorem find_resolve (t : Nat) (k : String) (d : Doc) :
    Doc.find k (d.resolve t) = (Doc.find k d).map (Value.resolve t) := by
  induction d with
  | nil => simp [Doc.resolve]
  | cons hd tl ih =>
    obtain ⟨k', v'⟩ := hd
    by_cases hk : k' = k
    · subst hk
      simp [Doc.resolve, Doc.find]
    · simp [Doc.resolve, Doc.find, hk] at ih ⊢
      exact ih

@[simp] theorem resolve_nil (t : Nat) : Doc.resolve t [] = [] := rfl

@[simp] theorem resolve_cons (t : Nat) (k : String) (v : Value) (d : Doc) :
    Doc.resolve t ((k, v) :: d) = (k, v.resolve t) :: Doc.resolve t d := rfl

@[simp] theorem resolve_append (t : Nat) (d1 d2 : Doc) :
    Doc.resolve t (d1 ++ d2) = Doc.resolve t d1 ++ Doc.resolve t d2 := by
  simp [Doc.resolve]

@[simp] theorem resolve_vStr (t : Nat) (s : String) : (Value.vStr s).resolve t = .vStr s := rfl
@[simp] theorem resolve_vInt (t : Nat) (n : Int) : (Value.vInt n).resolve t = .vInt n := rfl
@[simp] theorem resolve_vBool (t : Nat) (b : Bool) : (Value.vBool b).resolve t = .vBool b := rfl
@[simp] theorem resolve_vTime (t u : Nat) : (Value.vTime u).resolve t = .vTime u := rfl
@[simp] theorem resolve_vSentinel (t : Nat) : Value.vSentinel.resolve t = .vTime t := rfl
@[simp] theorem resolve_vStrList (t : Nat) (xs : List String) :
    (Value.vStrList xs).resolve t = .vStrList xs := rfl
@[simp] theorem resolve_vDict (t : Nat) (kvs : List (String × String)) :
    (Value.vDict kvs).resolve t = .vDict kvs := rfl
@[simp] theorem resolve_vDictList (t : Nat) (ds : List (List (String × String))) :
    (Value.vDictList ds).resolve t = .vDictList ds := rfl
@[simp] theorem resolve_vIntDict (t : Nat) (kvs : List (String × Int)) :
    (Value.vIntDict kvs).resolve t = .vIntDict kvs := rfl
@[simp] theorem resolve_vStyleGuide (t : Nat) (m : String) (ti le : Option String) (la : Option Nat) :
    (Value.vStyleGuide m ti le la).resolve t = .vStyleGuide m ti le la := rfl

@[simp] theorem resolve_sfield_vStr (t : Nat) (k : String) (x : Option String) :
    Doc.resolve t (sfield k Value.vStr x) = sfield k Value.vStr x := by
  cases x <;> rfl

@[simp] theorem resolve_sfield_vTime (t : Nat) (k : String) (x : Option Nat) :
    Doc.resolve t (sfield k Value.vTime x) = sfield k Value.vTime x := by
  cases x <;> rfl

@[simp] theorem resolve_sfield_vInt (t : Nat) (k : String) (x : Option Int) :
    Doc.resolve t (sfield k Value.vInt x) = sfield k Value.vInt x := by
  cases x <;> rfl

@[simp] theorem resolve_sfield_vBool (t : Nat) (k : String) (x : Option Bool) :
    Doc.resolve t (sfield k Value.vBool x) = sfield k Value.vBool x := by
  cases x <;> rfl

@[simp] theorem resolve_sfield_vDict (t : Nat) (k : String) (x : Option (List (String × String))) :
    Doc.resolve t (sfield k Value.vDict x) = sfield k Value.vDict x := by
  cases x <;> rfl

@[simp] theorem resolve_sfield_vDictList (t : Nat) (k : String)
    (x : Option (List (List (String × String)))) :
    Doc.resolve t (sfield k Value.vDictList x) = sfield k Value.vDictList x := by
  cases x <;> rfl

@[simp] theorem resolve_sfield_vIntDict (t : Nat) (k : String)
    (x : Option (List (String × Int))) :
    Doc.resolve t (sfield k Value.vIntDict x) = sfield k Value.vIntDict x := by
  cases x <;> rfl

@[simp] theorem resolve_set (t : Nat) (k : String) (v : Value) (d : Doc) :
    Doc.resolve t (Doc.set k v d) = Doc.set k (v.resolve t) (Doc.resolve t d) := by
  induction d with
  | nil => rfl
  | cons hd tl ih =>
    obtain ⟨k', v'⟩ := hd
    by_cases hk : k' = k
    · subst hk
      simp [Doc.set, Doc.resolve]
    · simp [Doc.set, Doc.resolve, hk] at ih ⊢
      exact ih

@[simp] theorem find_erase_ne (k k' : String) (h : k ≠ k') (d : Doc) :
    Doc.find k' (Doc.erase k d) = Doc.find k' d := by
  induction d with
  | nil => rfl
  | cons hd tl ih =>
    obtain ⟨k'', v''⟩ := hd
    by_cases hk : k'' = k
    · subst hk
      simp [Doc.erase, Doc.find, h, ih]
    · by_cases hk2 : k'' = k'
      · subst hk2
        simp [Doc.erase, Doc.find, hk]
      · simp [Doc.erase, Doc.find, hk, hk2, ih]

/-! Store-level simp lemmas. -/

theorem find?_putAssoc_self (p : Path) (d : Doc) (l : List (Path × Doc)) :
    (Store.putAssoc p d l).find? (fun pd => pd.1 = p) = some (p, d) := by
  induction l with
  | nil => simp [Store.putAssoc]
  | cons hd t ih =>
    obtain ⟨p', d'⟩ := hd
    simp only [Store.putAssoc]
    split
    · simp
    · rename_i hne
      simp only [List.find?]
      have hb : (decide ((p', d').1 = p)) = false := by simp [hne]
      simp only [hb]
      exact ih

@[simp] theorem getDoc_setDoc_self (s : Store) (p : Path) (d : Doc) :
    (s.setDoc p d).getDoc p = some (d.resolve s.now) := by
  simp [Store.setDoc, Store.getDoc, find?_putAssoc_self]

theorem find?_putAssoc_ne (p q : Path) (h : p ≠ q) (d : Doc) (l : List (Path × Doc)) :
    (Store.putAssoc p d l).find? (fun pd => pd.1 = q) = l.find? (fun pd => pd.1 = q) := by
  induction l with
  | nil => simp [Store.putAssoc, List.find?, h]
  | cons hd t ih =>
    obtain ⟨p', d'⟩ := hd
    simp only [Store.putAssoc]
    split
    · rename_i heq
      subst heq
      simp [List.find?, h]
    · simp only [List.find?]
      cases hdec : ((p', d').1 = q : Bool) with
      | true => simp [hdec]
      | false => simp [hdec, ih]

@[simp] theorem getDoc_setDoc_ne (s : Store) (p q : Path) (h : p ≠ q) (d : Doc) :
    (s.setDoc p d).getDoc q = s.getDoc q := by
  simp [Store.setDoc, Store.getDoc, find?_putAssoc_ne p q h]

@[simp] theorem setDoc_now (s : Store) (p : Path) (d : Doc) :
    (s.setDoc p d).now = s.now + 1 := rfl

@[simp] theorem setDoc_counter (s : Store) (p : Path) (d : Doc) :
    (s.setDoc p d).counter = s.counter := rfl

@[simp] theorem freshId_docs (s : Store) : (s.freshId.2).docs = s.docs := rfl

@[simp] theorem freshId_now (s : Store) : (s.freshId.2).now = s.now := rfl

/-! ## Except-monad simp lemmas -/

@[simp] theorem exceptBindOk {ε α β : Type} (a : α) (f : α → Except ε β) :
    (Except.ok a >>= f : Except ε β) = f a := rfl

@[simp] theorem exceptBindErr {ε α β : Type} (e : ε) (f : α → Except ε β) :
    (Except.error e >>= f : Except ε β) = Except.error e := rfl

@[simp] theorem exceptPureEq {ε α : Type} (a : α) :
    (pure a : Except ε α) = Except.ok a := rfl

@[simp] theorem option_or_none {α : Type} (x : Option α) : x.or none = x := by
  cases x <;> rfl

/-! ## Entity models (src/api/models.py)

Field order follows the Python classes: the FirestoreBase envelope fields
first (id, org_id, project_id, created_at, updated_at), then the subclass
fields in declaration order.  In Python created_at has default_factory now
(the client clock at model construction); the explicit make constructors
below mirror Python default construction at a given client time. -/

inductive GenerationStatus where
  | pending
  | running
  | completed
  | failed
  deriving Repr, DecidableEq

def GenerationStatus.toStr : GenerationStatus → String
  | .pending => "pending"
  | .running => "running"
  | .completed => "completed"
  | .failed => "failed"

def GenerationStatus.ofStr (s : String) : Option GenerationStatus :=
  if s = "pending" then some .pending
  else if s = "running" then some .running
  else if s = "completed" then some .completed
  else if s = "failed" then some .failed
  else none

structure StyleGuide where
  markdown_text : String
  title : Option String := none
  last_edited_by : Option String := none
  last_edited_at : Option Nat := none
  deriving Repr, DecidableEq

structure Membership where
  org_id : String
  role : String
  deriving Repr, DecidableEq

structure ProjectMembership where
  project_id : String
  role : String
  deriving Repr, DecidableEq

structure Organization where
  id : Option String := none
  org_id : Option String := none
  project_id : Option String := none
  created_at : Option Nat := none
  updated_at : Option Nat := none
  name : String
  owner_user_id : Option String := none
  plan_tier : Option String := none
  members_summary : Option (List (List (String × String))) := none
  deriving Repr, DecidableEq

/-- Python default construction Organization(name=...) at client time tnow:
created_at gets default_factory now, every other optional field its default. -/
def Organization.make (tnow : Nat) (name : String) : Organization :=
  { name := name, created_at := some tnow }

structure Project where
  id : Option String := none
  org_id : Option String := none
  project_id : Option String := none
  created_at : Option Nat := none
  updated_at : Option Nat := none
  name : String
  description : Option String := none
  settings : Option (List (String × String)) := some []
  style_guide_markdown : Option String := none
  style_guide : Option StyleGuide := none
  asset_count : Option Int := some 0
  theme_count : Option Int := some 0
  deriving Repr, DecidableEq

def Project.make (tnow : Nat) (name : String) : Project :=
  { name := name, created_at := some tnow }

structure Asset where
  id : Option String := none
  org_id : Option String := none
  project_id : Option String := none
  created_at : Option Nat := none
  updated_at : Option Nat := none
  name : String
  description : Option String := none
  prompt : Option String := none
  size : Option String := none
  width : Option Int := none
  height : Option Int := none
  theme_id : Option String := none
  theme_name : Option String := none
  concept_image_ids : List String := []
  tags : List String := []
  created_by : Option String := none
  final_variant_id : Option String := none
  current_image_url : Option String := none
  latest_generation_id : Option String := none
  latest_generation_at : Option Nat := none
  deriving Repr, DecidableEq

def Asset.make (tnow : Nat) (name : String) : Asset :=
  { name := name, created_at := some tnow }

structure Generation where
  id : Option String := none
  org_id : Option String := none
  project_id : Option String := none
  created_at : Option Nat := none
  updated_at : Option Nat := none
  prompt_text : String
  parameters : List (String × String) := []
  theme_id : Option String := none
  theme_snapshot : Option (List (String × String)) := none
  concept_image_ids : List String := []
  concept_image_weights : Option (List (String × Int)) := none
  variant_count : Nat := 0
  triggered_by : Option String := none
  status : GenerationStatus := .pending
  notes : Option String := none
  version_number : Option Int := none
  variant_summary : Option (List (List (String × String))) := none
  deriving Repr, DecidableEq

def Generation.make (tnow : Nat) (prompt_text : String) : Generation :=
  { prompt_text := prompt_text, created_at := some tnow }

structure Variant where
  id : Option String := none
  org_id : Option String := none
  project_id : Option String := none
  created_at : Option Nat := none
  updated_at : Option Nat := none
  image_url : String
  thumbnail_url : Option String := none
  metadata : Option (List (String × String)) := some []
  is_selected : Option Bool := some false
  feedback : Option String := none
  generated_at : Option Nat := none
  deriving Repr, DecidableEq

def Variant.make (tnow : Nat) (image_url : String) : Variant :=
  { image_url := image_url, created_at := some tnow }

structure User where
  id : Option String := none
  org_id : Option String := none
  project_id : Option String := none
  created_at : Option Nat := none
  updated_at : Option Nat := none
  name : Option String := none
  email : Option String := none
  profile_picture_url : Option String := none
  org_memberships : Option (List Membership) := some []
  project_memberships : Option (List ProjectMembership) := some []
  last_login : Option Nat := none
  preferences : Option (List (String × String)) := some []
  deriving Repr, DecidableEq

/-- models.py AssetWithGenerations: the Asset fields plus a generations
list. -/
structure AssetWithGenerations extends Asset where
  generations : Option (List Generation) := none
  deriving Repr, DecidableEq

/-- models.py GenerationWithVariants: the Generation fields plus a variants
list. -/
structure GenerationWithVariants extends Generation where
  variants : Option (List Variant) := none
  deriving Repr, DecidableEq

/-! ## Serialization (pydantic model.dict with exclude_none=True)

The dictExclNone functions embed model.dict(exclude_none=True): fields whose
value is None are omitted; the remaining fields appear in declaration
order.  serialize is FirestoreAccessor model_to_dict with include_id False:
dict(exclude_none=True) with the id entry popped. -/

def Membership.dict (m : Membership) : List (String × String) :=
  [("org_id", m.org_id), ("role", m.role)]

def ProjectMembership.dict (m : ProjectMembership) : List (String × String) :=
  [("project_id", m.project_id), ("role", m.role)]

def StyleGuide.toValue (sg : StyleGuide) : Value :=
  .vStyleGuide sg.markdown_text sg.title sg.last_edited_by sg.last_edited_at

def Organization.dictExclNone (o : Organization) : Doc :=
  sfield "id" Value.vStr o.id ++
  sfield "org_id" Value.vStr o.org_id ++
  sfield "project_id" Value.vStr o.project_id ++
  sfield "created_at" Value.vTime o.created_at ++
  sfield "updated_at" Value.vTime o.updated_at ++
  [("name", Value.vStr o.name)] ++
  sfield "owner_user_id" Value.vStr o.owner_user_id ++
  sfield "plan_tier" Value.vStr o.plan_tier ++
  sfield "members_summary" Value.vDictList o.members_summary

def Organization.serialize (o : Organization) : Doc :=
  Doc.erase "id" o.dictExclNone

def Project.dictExclNone (p : Project) : Doc :=
  sfield "id" Value.vStr p.id ++
  sfield "org_id" Value.vStr p.org_id ++
  sfield "project_id" Value.vStr p.project_id ++
  sfield "created_at" Value.vTime p.created_at ++
  sfield "updated_at" Value.vTime p.updated_at ++
  [("name", Value.vStr p.name)] ++
  sfield "description" Value.vStr p.description ++
  sfield "settings" Value.vDict p.settings ++
  sfield "style_guide_markdown" Value.vStr p.style_guide_markdown ++
  sfield "style_guide" StyleGuide.toValue p.style_guide ++
  sfield "asset_count" Value.vInt p.asset_count ++
  sfield "theme_count" Value.vInt p.theme_count

def Project.serialize (p : Project) : Doc :=
  Doc.erase "id" p.dictExclNone

def Asset.dictExclNone (a : Asset) : Doc :=
  sfield "id" Value.vStr a.id ++
  sfield "org_id" Value.vStr a.org_id ++
  sfield "project_id" Value.vStr a.project_id ++
  sfield "created_at" Value.vTime a.created_at ++
  sfield "updated_at" Value.vTime a.updated_at ++
  [("name", Value.vStr a.name)] ++
  sfield "description" Value.vStr a.description ++
  sfield "prompt" Value.vStr a.prompt ++
  sfield "size" Value.vStr a.size ++
  sfield "width" Value.vInt a.width ++
  sfield "height" Value.vInt a.height ++
  sfield "theme_id" Value.vStr a.theme_id ++
  sfield "theme_name" Value.vStr a.theme_name ++
  [("concept_image_ids", Value.vStrList a.concept_image_ids)] ++
  [("tags", Value.vStrList a.tags)] ++
  sfield "created_by" Value.vStr a.created_by ++
  sfield "final_variant_id" Value.vStr a.final_variant_id ++
  sfield "current_image_url" Value.vStr a.current_image_url ++
  sfield "latest_generation_id" Value.vStr a.latest_generation_id ++
  sfield "latest_generation_at" Value.vTime a.latest_generation_at

def Asset.serialize (a : Asset) : Doc :=
  Doc.erase "id" a.dictExclNone

def Generation.dictExclNone (g : Generation) : Doc :=
  sfield "id" Value.vStr g.id ++
  sfield "org_id" Value.vStr g.org_id ++
  sfield "project_id" Value.vStr g.project_id ++
  sfield "created_at" Value.vTime g.created_at ++
  sfield "updated_at" Value.vTime g.updated_at ++
  [("prompt_text", Value.vStr g.prompt_text)] ++
  [("parameters", Value.vDict g.parameters)] ++
  sfield "theme_id" Value.vStr g.theme_id ++
  sfield "theme_snapshot" Value.vDict g.theme_snapshot ++
  [("concept_image_ids", Value.vStrList g.concept_image_ids)] ++
  sfield "concept_image_weights" Value.vIntDict g.concept_image_weights ++
  [("variant_count", Value.vInt (Int.ofNat g.variant_count))] ++
  sfield "triggered_by" Value.vStr g.triggered_by ++
  [("status", Value.vStr g.status.toStr)] ++
  sfield "notes" Value.vStr g.notes ++
  sfield "version_number" Value.vInt g.version_number ++
  sfield "variant_summary" Value.vDictList g.variant_summary

def Generation.serialize (g : Generation) : Doc :=
  Doc.erase "id" g.dictExclNone

def Variant.dictExclNone (v : Variant) : Doc :=
  sfield "id" Value.vStr v.id ++
  sfield "org_id" Value.vStr v.org_id ++
  sfield "project_id" Value.vStr v.project_id ++
  sfield "created_at" Value.vTime v.created_at ++
  sfield "updated_at" Value.vTime v.updated_at ++
  [("image_url", Value.vStr v.image_url)] ++
  sfield "thumbnail_url" Value.vStr v.thumbnail_url ++
  sfield "metadata" Value.vDict v.metadata ++
  sfield "is_selected" Value.vBool v.is_selected ++
  sfield "feedback" Value.vStr v.feedback ++
  sfield "generated_at" Value.vTime v.generated_at

def Variant.serialize (v : Variant) : Doc :=
  Doc.erase "id" v.dictExclNone

def User.dictExclNone (u : User) : Doc :=
  sfield "id" Value.vStr u.id ++
  sfield "org_id" Value.vStr u.org_id ++
  sfield "project_id" Value.vStr u.project_id ++
  sfield "created_at" Value.vTime u.created_at ++
  sfield "updated_at" Value.vTime u.updated_at ++
  sfield "name" Value.vStr u.name ++
  sfield "email" Value.vStr u.email ++
  sfield "profile_picture_url" Value.vStr u.profile_picture_url ++
  sfield "org_memberships" (fun ms => Value.vDictList (ms.map Membership.dict)) u.org_memberships ++
  sfield "project_memberships" (fun ms => Value.vDictList (ms.map ProjectMembership.dict)) u.project_memberships ++
  sfield "last_login" Value.vTime u.last_login ++
  sfield "preferences" Value.vDict u.preferences

def User.serialize (u : User) : Doc :=
  Doc.erase "id" u.dictExclNone

/-- Serialize one optional model field into a full dump: present as vNull
when the value is None (pydantic model.dict() without exclude_none). -/
def nfield (k : String) (f : α → Value) : Option α → Doc
  | none => [(k, Value.vNull)]
  | some a => [(k, f a)]

/-- pydantic Variant.dict() without exclude_none: every declared field is
present; None fields appear as null.  This is the API response shape of one
variant, used to state which keys a returned variant carries. -/
def Variant.dictFull (v : Variant) : Doc :=
  nfield "id" Value.vStr v.id ++
  nfield "org_id" Value.vStr v.org_id ++
  nfield "project_id" Value.vStr v.project_id ++
  nfield "created_at" Value.vTime v.created_at ++
  nfield "updated_at" Value.vTime v.updated_at ++
  [("image_url", Value.vStr v.image_url)] ++
  nfield "thumbnail_url" Value.vStr v.thumbnail_url ++
  nfield "metadata" Value.vDict v.metadata ++
  nfield "is_selected" Value.vBool v.is_selected ++
  nfield "feedback" Value.vStr v.feedback ++
  nfield "generated_at" Value.vTime v.generated_at

/-! ## Field parsing (pydantic validation when a document is read back)

Each parser embeds pydantic coercion of one field kind from the looked-up
stored value: a missing key triggers the field default, a null value maps
to None for Optional fields and to a validation error for required ones,
and a value of the wrong shape is a validation error.  The parsers take the
result of Doc.find so that simp lemmas can rewrite them. -/

def pReqStrV : Option Value → Except String String
  | some (.vStr s) => .ok s
  | some _ => .error "value is not a valid str"
  | none => .error "field required"

def pOptStrV : Option Value → Except String (Option String)
  | none => .ok none
  | some .vNull => .ok none
  | some (.vStr s) => .ok (some s)
  | some _ => .error "value is not a valid str"

def pOptTimeV : Option Value → Except String (Option Nat)
  | none => .ok none
  | some .vNull => .ok none
  | some (.vTime t) => .ok (some t)
  | some _ => .error "value is not a valid datetime"

/-- created_at: Optional datetime with default_factory now, so a missing
key yields the client clock at parse time. -/
def pTimeDefaultV (tnow : Nat) : Option Value → Except String (Option Nat)
  | none => .ok (some tnow)
  | some .vNull => .ok none
  | some (.vTime t) => .ok (some t)
  | some _ => .error "value is not a valid datetime"

def pOptIntV : Option Value → Except String (Option Int)
  | none => .ok none
  | some .vNull => .ok none
  | some (.vInt n) => .ok (some n)
  | some _ => .error "value is not a valid integer"

def pOptBoolV : Option Value → Except String (Option Bool)
  | none => .ok none
  | some .vNull => .ok none
  | some (.vBool b) => .ok (some b)
  | some _ => .error "value is not a valid boolean"

/-- is_selected: Optional bool with default False. -/
def pOptBoolDefFalseV : Option Value → Except String (Option Bool)
  | none => .ok (some false)
  | some .vNull => .ok none
  | some (.vBool b) => .ok (some b)
  | some _ => .error "value is not a valid boolean"

/-- Non-optional list of strings with default_factory list (tags,
concept_image_ids). -/
def pStrListDefV : Option Value → Except String (List String)
  | none => .ok []
  | some (.vStrList xs) => .ok xs
  | some _ => .error "value is not a valid list"

/-- Non-optional dict with default_factory dict (Generation parameters). -/
def pDictDefV : Option Value → Except String (List (String × String))
  | none => .ok []
  | some (.vDict kvs) => .ok kvs
  | some _ => .error "value is not a valid dict"

/-- Optional dict defaulting to None (theme_snapshot). -/
def pOptDictV : Option Value → Except String (Option (List (String × String)))
  | none => .ok none
  | some .vNull => .ok none
  | some (.vDict kvs) => .ok (some kvs)
  | some _ => .error "value is not a valid dict"

/-- Optional dict with default_factory dict (settings, metadata,
preferences). -/
def pOptDictDefV : Option Value → Except String (Option (List (String × String)))
  | none => .ok (some [])
  | some .vNull => .ok none
  | some (.vDict kvs) => .ok (some kvs)
  | some _ => .error "value is not a valid dict"

def pOptDictListV : Option Value → Except String (Option (List (List (String × String))))
  | none => .ok none
  | some .vNull => .ok none
  | some (.vDictList ds) => .ok (some ds)
  | some _ => .error "value is not a valid list"

def pOptIntDictV : Option Value → Except String (Option (List (String × Int)))
  | none => .ok none
  | some .vNull => .ok none
  | some (.vIntDict kvs) => .ok (some kvs)
  | some _ => .error "value is not a valid dict"

def pOptStyleGuideV : Option Value → Except String (Option StyleGuide)
  | none => .ok none
  | some .vNull => .ok none
  | some (.vStyleGuide m ti le la) => .ok (some ⟨m, ti, le, la⟩)
  | some _ => .error "value is not a valid StyleGuide"

/-- status: GenerationStatus with default PENDING; an unknown string is a
validation error (invalid enum member). -/
def pStatusV : Option Value → Except String GenerationStatus
  | none => .ok .pending
  | some (.vStr s) =>
    match GenerationStatus.ofStr s with
    | some st => .ok st
    | none => .error "value is not a valid enumeration member"
  | some _ => .error "value is not a valid enumeration member"

/-- variant_count: int with default 0 and constraint ge 0. -/
def pVariantCountV : Option Value → Except String Nat
  | none => .ok 0
  | some (.vInt n) =>
    if 0 ≤ n then .ok n.toNat else .error "ensure this value is greater than or equal to 0"
  | some _ => .error "value is not a valid integer"

def pOneMembership (d : List (String × String)) : Except String Membership :=
  match d.find? (fun kv => kv.1 = "org_id"), d.find? (fun kv => kv.1 = "role") with
  | some o, some r => Except.ok (Membership.mk o.2 r.2)
  | _, _ => Except.error "field required"

def pOptMembershipsV : Option Value → Except String (Option (List Membership))
  | none => .ok (some [])
  | some .vNull => .ok none
  | some (.vDictList ds) => (ds.mapM pOneMembership).map some
  | some _ => .error "value is not a valid list"

def pOneProjMembership (d : List (String × String)) : Except String ProjectMembership :=
  match d.find? (fun kv => kv.1 = "project_id"), d.find? (fun kv => kv.1 = "role") with
  | some p, some r => Except.ok (ProjectMembership.mk p.2 r.2)
  | _, _ => Except.error "field required"

def pOptProjMembershipsV : Option Value → Except String (Option (List ProjectMembership))
  | none => .ok (some [])
  | some .vNull => .ok none
  | some (.vDictList ds) => (ds.mapM pOneProjMembership).map some
  | some _ => .error "value is not a valid list"

/-! Simp lemmas relating each parser to serialized field shapes. -/

@[simp] theorem pReqStrV_str (s : String) : pReqStrV (some (.vStr s)) = .ok s := rfl

@[simp] theorem pOptStrV_map (x : Option String) :
    pOptStrV (x.map Value.vStr) = .ok x := by cases x <;> rfl

@[simp] theorem pOptTimeV_map (x : Option Nat) :
    pOptTimeV (x.map Value.vTime) = .ok x := by cases x <;> rfl

@[simp] theorem pTimeDefaultV_map (tnow : Nat) (x : Option Nat) :
    pTimeDefaultV tnow (x.map Value.vTime) = .ok (some (x.getD tnow)) := by
  cases x <;> rfl

@[simp] theorem pOptIntV_map (x : Option Int) :
    pOptIntV (x.map Value.vInt) = .ok x := by cases x <;> rfl

@[simp] theorem pOptBoolV_map (x : Option Bool) :
    pOptBoolV (x.map Value.vBool) = .ok x := by cases x <;> rfl

@[simp] theorem pOptBoolDefFalseV_some (b : Bool) :
    pOptBoolDefFalseV (some (.vBool b)) = .ok (some b) := rfl

@[simp] theorem pStrListDefV_some (xs : List String) :
    pStrListDefV (some (.vStrList xs)) = .ok xs := rfl

@[simp] theorem pDictDefV_some (kvs : List (String × String)) :
    pDictDefV (some (.vDict kvs)) = .ok kvs := rfl

@[simp] theorem pOptDictV_map (x : Option (List (String × String))) :
    pOptDictV (x.map Value.vDict) = .ok x := by cases x <;> rfl

@[simp] theorem pOptDictDefV_some (kvs : List (String × String)) :
    pOptDictDefV (some (.vDict kvs)) = .ok (some kvs) := rfl

@[simp] theorem pOptDictListV_map (x : Option (List (List (String × String)))) :
    pOptDictListV (x.map Value.vDictList) = .ok x := by cases x <;> rfl

@[simp] theorem pOptIntDictV_map (x : Option (List (String × Int))) :
    pOptIntDictV (x.map Value.vIntDict) = .ok x := by cases x <;> rfl

@[simp] theorem pOptStyleGuideV_map (x : Option StyleGuide) :
    pOptStyleGuideV (x.map StyleGuide.toValue) = .ok x := by
  cases x with
  | none => rfl
  | some sg => cases sg; rfl

@[simp] theorem pStatusV_toStr (st : GenerationStatus) :
    pStatusV (some (.vStr st.toStr)) = .ok st := by
  cases st <;> rfl

@[simp] theorem pVariantCountV_ofNat (n : Nat) :
    pVariantCountV (some (.vInt (Int.ofNat n))) = .ok n := by
  simp [pVariantCountV]

@[simp] theorem pVariantCountV_cast (n : Nat) :
    pVariantCountV (some (.vInt (n : Int))) = .ok n := by
  simp [pVariantCountV]

/-! Constructor-form parser lemmas, for goals where the looked-up value is
a concrete constructor rather than an Option.map image. -/

@[simp] theorem pOptStrV_none : pOptStrV none = .ok none := rfl
@[simp] theorem pOptStrV_some (s : String) : pOptStrV (some (.vStr s)) = .ok (some s) := rfl
@[simp] theorem pOptTimeV_none : pOptTimeV none = .ok none := rfl
@[simp] theorem pOptTimeV_some (t : Nat) : pOptTimeV (some (.vTime t)) = .ok (some t) := rfl
@[simp] theorem pTimeDefaultV_none (tnow : Nat) : pTimeDefaultV tnow none = .ok (some tnow) := rfl
@[simp] theorem pTimeDefaultV_some (tnow t : Nat) :
    pTimeDefaultV tnow (some (.vTime t)) = .ok (some t) := rfl
@[simp] theorem pOptIntV_none : pOptIntV none = .ok none := rfl
@[simp] theorem pOptIntV_some (n : Int) : pOptIntV (some (.vInt n)) = .ok (some n) := rfl
@[simp] theorem pOptBoolV_none : pOptBoolV none = .ok none := rfl
@[simp] theorem pOptBoolV_some (b : Bool) : pOptBoolV (some (.vBool b)) = .ok (some b) := rfl
@[simp] theorem pOptBoolDefFalseV_none : pOptBoolDefFalseV none = .ok (some false) := rfl
@[simp] theorem pStrListDefV_none : pStrListDefV none = .ok [] := rfl
@[simp] theorem pDictDefV_none : pDictDefV none = .ok [] := rfl
@[simp] theorem pOptDictV_none : pOptDictV none = .ok none := rfl
@[simp] theorem pOptDictV_some (kvs : List (String × String)) :
    pOptDictV (some (.vDict kvs)) = .ok (some kvs) := rfl
@[simp] theorem pOptDictDefV_none : pOptDictDefV none = .ok (some []) := rfl
@[simp] theorem pOptDictListV_none : pOptDictListV none = .ok none := rfl
@[simp] theorem pOptDictListV_some (ds : List (List (String × String))) :
    pOptDictListV (some (.vDictList ds)) = .ok (some ds) := rfl
@[simp] theorem pOptIntDictV_none : pOptIntDictV none = .ok none := rfl
@[simp] theorem pOptIntDictV_some (kvs : List (String × Int)) :
    pOptIntDictV (some (.vIntDict kvs)) = .ok (some kvs) := rfl
@[simp] theorem pOptStyleGuideV_none : pOptStyleGuideV none = .ok none := rfl
@[simp] theorem pStatusV_none : pStatusV none = .ok .pending := rfl
@[simp] theorem pVariantCountV_none : pVariantCountV none = .ok 0 := rfl
@[simp] theorem pOptMembershipsV_none : pOptMembershipsV none = .ok (some []) := rfl
@[simp] theorem pOptProjMembershipsV_none : pOptProjMembershipsV none = .ok (some []) := rfl

/-! ## Document to model parsing (FirestoreAccessor doc_to_model)

Each fromDoc embeds constructing model_cls(**data) from the stored field
map with the document id injected (data id = snapshot.id), as in
doc_to_model of firebase.py.  tnow is the client clock at parse time,
consumed only by the created_at default factory. -/

def Organization.fromDoc (docId : String) (tnow : Nat) (d : Doc) :
    Except String Organization := do
  let org_id ← pOptStrV (d.find "org_id")
  let project_id ← pOptStrV (d.find "project_id")
  let created_at ← pTimeDefaultV tnow (d.find "created_at")
  let updated_at ← pOptTimeV (d.find "updated_at")
  let name ← pReqStrV (d.find "name")
  let owner_user_id ← pOptStrV (d.find "owner_user_id")
  let plan_tier ← pOptStrV (d.find "plan_tier")
  let members_summary ← pOptDictListV (d.find "members_summary")
  .ok { id := some docId, org_id := org_id, project_id := project_id,
        created_at := created_at, updated_at := updated_at, name := name,
        owner_user_id := owner_user_id, plan_tier := plan_tier,
        members_summary := members_summary }

def Project.fromDoc (docId : String) (tnow : Nat) (d : Doc) :
    Except String Project := do
  let org_id ← pOptStrV (d.find "org_id")
  let project_id ← pOptStrV (d.find "project_id")
  let created_at ← pTimeDefaultV tnow (d.find "created_at")
  let updated_at ← pOptTimeV (d.find "updated_at")
  let name ← pReqStrV (d.find "name")
  let description ← pOptStrV (d.find "description")
  let settings ← pOptDictDefV (d.find "settings")
  let style_guide_markdown ← pOptStrV (d.find "style_guide_markdown")
  let style_guide ← pOptStyleGuideV (d.find "style_guide")
  let asset_count ← pOptIntV (d.find "asset_count")
  let theme_count ← pOptIntV (d.find "theme_count")
  .ok { id := some docId, org_id := org_id, project_id := project_id,
        created_at := created_at, updated_at := updated_at, name := name,
        description := description, settings := settings,
        style_guide_markdown := style_guide_markdown, style_guide := style_guide,
        asset_count := asset_count, theme_count := theme_count }

def Asset.fromDoc (docId : String) (tnow : Nat) (d : Doc) :
    Except String Asset := do
  let org_id ← pOptStrV (d.find "org_id")
  let project_id ← pOptStrV (d.find "project_id")
  let created_at ← pTimeDefaultV tnow (d.find "created_at")
  let updated_at ← pOptTimeV (d.find "updated_at")
  let name ← pReqStrV (d.find "name")
  let description ← pOptStrV (d.find "description")
  let prompt ← pOptStrV (d.find "prompt")
  let size ← pOptStrV (d.find "size")
  let width ← pOptIntV (d.find "width")
  let height ← pOptIntV (d.find "height")
  let theme_id ← pOptStrV (d.find "theme_id")
  let theme_name ← pOptStrV (d.find "theme_name")
  let concept_image_ids ← pStrListDefV (d.find "concept_image_ids")
  let tags ← pStrListDefV (d.find "tags")
  let created_by ← pOptStrV (d.find "created_by")
  let final_variant_id ← pOptStrV (d.find "final_variant_id")
  let current_image_url ← pOptStrV (d.find "current_image_url")
  let latest_generation_id ← pOptStrV (d.find "latest_generation_id")
  let latest_generation_at ← pOptTimeV (d.find "latest_generation_at")
  .ok { id := some docId, org_id := org_id, project_id := project_id,
        created_at := created_at, updated_at := updated_at, name := name,
        description := description, prompt := prompt, size := size,
        width := width, height := height, theme_id := theme_id,
        theme_name := theme_name, concept_image_ids := concept_image_ids,
        tags := tags, created_by := created_by,
        final_variant_id := final_variant_id,
        current_image_url := current_image_url,
        latest_generation_id := latest_generation_id,
        latest_generation_at := latest_generation_at }

def Generation.fromDoc (docId : String) (tnow : Nat) (d : Doc) :
    Except String Generation := do
  let org_id ← pOptStrV (d.find "org_id")
  let project_id ← pOptStrV (d.find "project_id")
  let created_at ← pTimeDefaultV tnow (d.find "created_at")
  let updated_at ← pOptTimeV (d.find "updated_at")
  let prompt_text ← pReqStrV (d.find "prompt_text")
  let parameters ← pDictDefV (d.find "parameters")
  let theme_id ← pOptStrV (d.find "theme_id")
  let theme_snapshot ← pOptDictV (d.find "theme_snapshot")
  let concept_image_ids ← pStrListDefV (d.find "concept_image_ids")
  let concept_image_weights ← pOptIntDictV (d.find "concept_image_weights")
  let variant_count ← pVariantCountV (d.find "variant_count")
  let triggered_by ← pOptStrV (d.find "triggered_by")
  let status ← pStatusV (d.find "status")
  let notes ← pOptStrV (d.find "notes")
  let version_number ← pOptIntV (d.find "version_number")
  let variant_summary ← pOptDictListV (d.find "variant_summary")
  .ok { id := some docId, org_id := org_id, project_id := project_id,
        created_at := created_at, updated_at := updated_at,
        prompt_text := prompt_text, parameters := parameters,
        theme_id := theme_id, theme_snapshot := theme_snapshot,
        concept_image_ids := concept_image_ids,
        concept_image_weights := concept_image_weights,
        variant_count := variant_count, triggered_by := triggered_by,
        status := status, notes := notes, version_number := version_number,
        variant_summary := variant_summary }

def Variant.fromDoc (docId : String) (tnow : Nat) (d : Doc) :
    Except String Variant := do
  let org_id ← pOptStrV (d.find "org_id")
  let project_id ← pOptStrV (d.find "project_id")
  let created_at ← pTimeDefaultV tnow (d.find "created_at")
  let updated_at ← pOptTimeV (d.find "updated_at")
  let image_url ← pReqStrV (d.find "image_url")
  let thumbnail_url ← pOptStrV (d.find "thumbnail_url")
  let metadata ← pOptDictDefV (d.find "metadata")
  let is_selected ← pOptBoolDefFalseV (d.find "is_selected")
  let feedback ← pOptStrV (d.find "feedback")
  let generated_at ← pOptTimeV (d.find "generated_at")
  .ok { id := some docId, org_id := org_id, project_id := project_id,
        created_at := created_at, updated_at := updated_at,
        image_url := image_url, thumbnail_url := thumbnail_url,
        metadata := metadata, is_selected := is_selected,
        feedback := feedback, generated_at := generated_at }

def User.fromDoc (docId : String) (tnow : Nat) (d : Doc) :
    Except String User := do
  let org_id ← pOptStrV (d.find "org_id")
  let project_id ← pOptStrV (d.find "project_id")
  let created_at ← pTimeDefaultV tnow (d.find "created_at")
  let updated_at ← pOptTimeV (d.find "updated_at")
  let name ← pOptStrV (d.find "name")
  let email ← pOptStrV (d.find "email")
  let profile_picture_url ← pOptStrV (d.find "profile_picture_url")
  let org_memberships ← pOptMembershipsV (d.find "org_memberships")
  let project_memberships ← pOptProjMembershipsV (d.find "project_memberships")
  let last_login ← pOptTimeV (d.find "last_login")
  let preferences ← pOptDictDefV (d.find "preferences")
  .ok { id := some docId, org_id := org_id, project_id := project_id,
        created_at := created_at, updated_at := updated_at, name := name,
        email := email, profile_picture_url := profile_picture_url,
        org_memberships := org_memberships,
        project_memberships := project_memberships,
        last_login := last_login, preferences := preferences }

/-! ## Metadata attachment (FirestoreAccessor attach_metadata)

attach_metadata sets each passed field on the model only when the value is
not None AND the model defines that attribute (hasattr).  FirestoreBase
contributes org_id and project_id to every model; no model declares
asset_id or generation_id, so those keyword arguments are silently dropped
by the hasattr guard.  The per-model functions below take exactly the
keyword arguments each call site of firebase.py passes. -/

def setOpt (old : Option String) : Option String → Option String
  | some v => some v
  | none => old

def Project.attach_metadata (p : Project) (org_id : Option String) : Project :=
  { p with org_id := setOpt p.org_id org_id }

def Asset.attach_metadata (a : Asset) (org_id project_id : Option String) : Asset :=
  { a with org_id := setOpt a.org_id org_id,
           project_id := setOpt a.project_id project_id }

/-- Generation is called with org_id, project_id and asset_id; the model
has no asset_id attribute, so hasattr is False and that argument is
dropped. -/
def Generation.attach_metadata (g : Generation)
    (org_id project_id _asset_id : Option String) : Generation :=
  { g with org_id := setOpt g.org_id org_id,
           project_id := setOpt g.project_id project_id }

/-- Variant is called with org_id, project_id, asset_id and generation_id;
the model declares neither asset_id nor generation_id, so hasattr is False
for both and only org_id and project_id are set. -/
def Variant.attach_metadata (v : Variant)
    (org_id project_id _asset_id _generation_id : Option String) : Variant :=
  { v with org_id := setOpt v.org_id org_id,
           project_id := setOpt v.project_id project_id }

/-! ## Document accessor (src/api/firebase.py FirestoreAccessor)

Accessor operations thread the Store explicitly.  Reads are pure; mutating
operations return the store alongside the result so that the state after a
failed operation is also observable.  tnow is the client clock, consumed
only by created_at default factories during parsing. -/

namespace FirestoreAccessor

def orgsCol : Path := ["organizations"]

def projectsCol (org_id : String) : Path :=
  orgsCol ++ [org_id, "projects"]

def assetsCol (org_id project_id : String) : Path :=
  projectsCol org_id ++ [project_id, "assets"]

def generationsCol (org_id project_id asset_id : String) : Path :=
  assetsCol org_id project_id ++ [asset_id, "generations"]

def variantsCol (org_id project_id asset_id generation_id : String) : Path :=
  generationsCol org_id project_id asset_id ++ [generation_id, "variants"]

def themesCol (org_id project_id : String) : Path :=
  projectsCol org_id ++ [project_id, "themes"]

def conceptImagesCol (org_id project_id : String) : Path :=
  projectsCol org_id ++ [project_id, "conceptImages"]

def usersCol : Path := ["users"]

/-- FirestoreAccessor create_doc: copy the payload; when timestamps are
requested (every call site passes the default True), set created_at to the
server sentinel only when the key is absent and always set updated_at to
the sentinel; then write under the given id or a freshly generated one. -/
def create_doc (s : Store) (col : Path) (data : Doc) (doc_id : Option String) :
    Store × String :=
  let payload :=
    Doc.set "updated_at" Value.vSentinel
      (if Doc.hasKey "created_at" data then data
       else data ++ [("created_at", Value.vSentinel)])
  match doc_id with
  | some i => (s.setDoc (col ++ [i]) payload, i)
  | none =>
    let (i, s2) := s.freshId
    (s2.setDoc (col ++ [i]) payload, i)

/-- FirestoreAccessor update_doc with set_updated_at True (every call site
uses the default): add the updated_at sentinel and issue a store-native
partial update. -/
def update_doc (s : Store) (p : Path) (updates : Doc) :
    Except FsError Unit × Store :=
  let payload := Doc.set "updated_at" Value.vSentinel updates
  match s.updateDoc p payload with
  | .ok s2 => (.ok (), s2)
  | .error e => (.error e, s)

def delete_doc (s : Store) (p : Path) : Store :=
  s.deleteDoc p

/-! Organization operations. -/

def get_organization (s : Store) (tnow : Nat) (org_id : String) :
    Except FsError (Option Organization) :=
  match s.getDoc (orgsCol ++ [org_id]) with
  | none => .ok none
  | some d =>
    match Organization.fromDoc org_id tnow d with
    | .ok m => .ok (some m)
    | .error e =>
      .error (.firestoreError ("Failed to parse document " ++ org_id ++ ": " ++ e))

def create_organization (s : Store) (tnow : Nat) (org : Organization)
    (org_id : Option String) : Except FsError Organization × Store :=
  let data := org.serialize
  let (s2, docId) := create_doc s orgsCol data org_id
  match get_organization s2 tnow docId with
  | .ok (some created) => (.ok created, s2)
  | .ok none => (.error (.firestoreError "Failed to read back created organization."), s2)
  | .error e => (.error e, s2)

def update_organization (s : Store) (org_id : String) (updates : Doc) :
    Except FsError Unit × Store :=
  update_doc s (orgsCol ++ [org_id]) updates

def delete_organization (s : Store) (org_id : String) : Store :=
  delete_doc s (orgsCol ++ [org_id])

/-! Project operations. -/

def get_project (s : Store) (tnow : Nat) (org_id project_id : String) :
    Except FsError (Option Project) :=
  match s.getDoc (projectsCol org_id ++ [project_id]) with
  | none => .ok none
  | some d =>
    match Project.fromDoc project_id tnow d with
    | .ok m => .ok (some (m.attach_metadata (some org_id)))
    | .error e =>
      .error (.firestoreError ("Failed to parse document " ++ project_id ++ ": " ++ e))

def create_project (s : Store) (tnow : Nat) (org_id : String) (project : Project)
    (project_id : Option String) : Except FsError Project × Store :=
  let data := project.serialize
  let (s2, docId) := create_doc s (projectsCol org_id) data project_id
  match s2.getDoc (projectsCol org_id ++ [docId]) with
  | none => (.error (.firestoreError "Failed to read back created project."), s2)
  | some d =>
    match Project.fromDoc docId tnow d with
    | .ok m => (.ok (m.attach_metadata (some org_id)), s2)
    | .error e =>
      (.error (.firestoreError ("Failed to parse document " ++ docId ++ ": " ++ e)), s2)

def update_project (s : Store) (org_id project_id : String) (updates : Doc) :
    Except FsError Unit × Store :=
  update_doc s (projectsCol org_id ++ [project_id]) updates

/-! Asset operations. -/

def get_asset (s : Store) (tnow : Nat) (org_id project_id asset_id : String) :
    Except FsError (Option Asset) :=
  match s.getDoc (assetsCol org_id project_id ++ [asset_id]) with
  | none => .ok none
  | some d =>
    match Asset.fromDoc asset_id tnow d with
    | .ok m => .ok (some (m.attach_metadata (some org_id) (some project_id)))
    | .error e =>
      .error (.firestoreError ("Failed to parse document " ++ asset_id ++ ": " ++ e))

def create_asset (s : Store) (tnow : Nat) (org_id project_id : String) (asset : Asset)
    (asset_id : Option String) : Except FsError Asset × Store :=
  let data := asset.serialize
  let (s2, docId) := create_doc s (assetsCol org_id project_id) data asset_id
  match get_asset s2 tnow org_id project_id docId with
  | .ok (some created) => (.ok created, s2)
  | .ok none => (.error (.firestoreError "Failed to read back created asset."), s2)
  | .error e => (.error e, s2)

def update_asset (s : Store) (org_id project_id asset_id : String) (updates : Doc) :
    Except FsError Unit × Store :=
  update_doc s (assetsCol org_id project_id ++ [asset_id]) updates

def delete_asset (s : Store) (org_id project_id asset_id : String) : Store :=
  delete_doc s (assetsCol org_id project_id ++ [asset_id])

/-! Generation operations. -/

def get_generation (s : Store) (tnow : Nat)
    (org_id project_id asset_id generation_id : String) :
    Except FsError (Option Generation) :=
  match s.getDoc (generationsCol org_id project_id asset_id ++ [generation_id]) with
  | none => .ok none
  | some d =>
    match Generation.fromDoc generation_id tnow d with
    | .ok m =>
      .ok (some (m.attach_metadata (some org_id) (some project_id) (some asset_id)))
    | .error e =>
      .error (.firestoreError ("Failed to parse document " ++ generation_id ++ ": " ++ e))

def create_generation (s : Store) (tnow : Nat) (org_id project_id asset_id : String)
    (generation : Generation) (generation_id : Option String) :
    Except FsError Generation × Store :=
  let data := generation.serialize
  let (s2, docId) := create_doc s (generationsCol org_id project_id asset_id) data generation_id
  match get_generation s2 tnow org_id project_id asset_id docId with
  | .ok (some created) => (.ok created, s2)
  | .ok none => (.error (.firestoreError "Failed to read back created generation."), s2)
  | .error e => (.error e, s2)

def update_generation (s : Store) (org_id project_id asset_id generation_id : String)
    (updates : Doc) : Except FsError Unit × Store :=
  update_doc s (generationsCol org_id project_id asset_id ++ [generation_id]) updates

/-! Variant operations. -/

def get_variant (s : Store) (tnow : Nat)
    (org_id project_id asset_id generation_id variant_id : String) :
    Except FsError (Option Variant) :=
  match s.getDoc (variantsCol org_id project_id asset_id generation_id ++ [variant_id]) with
  | none => .ok none
  | some d =>
    match Variant.fromDoc variant_id tnow d with
    | .ok m =>
      .ok (some (m.attach_metadata (some org_id) (some project_id)
        (some asset_id) (some generation_id)))
    | .error e =>
      .error (.firestoreError ("Failed to parse document " ++ variant_id ++ ": " ++ e))

def create_variant (s : Store) (tnow : Nat)
    (org_id project_id asset_id generation_id : String) (variant : Variant)
    (variant_id : Option String) : Except FsError Variant × Store :=
  let data := variant.serialize
  let (s2, docId) :=
    create_doc s (variantsCol org_id project_id asset_id generation_id) data variant_id
  match get_variant s2 tnow org_id project_id asset_id generation_id docId with
  | .ok (some created) => (.ok created, s2)
  | .ok none => (.error (.firestoreError "Failed to read back created variant."), s2)
  | .error e => (.error e, s2)

/-- FirestoreAccessor list_variants: fetch the variants collection, parse
every snapshot (query_to_models) and attach the ancestor metadata of the
path to each model. -/
def list_variants (s : Store) (tnow : Nat)
    (org_id project_id asset_id generation_id : String) :
    Except FsError (List Variant) :=
  let snaps := s.collection (variantsCol org_id project_id asset_id generation_id)
  match snaps.mapM (fun sd => Variant.fromDoc sd.1 tnow sd.2) with
  | .ok models =>
    .ok (models.map (fun m =>
      m.attach_metadata (some org_id) (some project_id)
        (some asset_id) (some generation_id)))
  | .error e => .error (.firestoreError ("Failed to parse document: " ++ e))

/-! User operations. -/

def get_user (s : Store) (tnow : Nat) (user_id : String) :
    Except FsError (Option User) :=
  match s.getDoc (usersCol ++ [user_id]) with
  | none => .ok none
  | some d =>
    match User.fromDoc user_id tnow d with
    | .ok m => .ok (some m)
    | .error e =>
      .error (.firestoreError ("Failed to parse document " ++ user_id ++ ": " ++ e))

def create_user (s : Store) (tnow : Nat) (user : User) (user_id : Option String) :
    Except FsError User × Store :=
  let data := user.serialize
  let (s2, docId) := create_doc s usersCol data user_id
  match get_user s2 tnow docId with
  | .ok (some created) => (.ok created, s2)
  | .ok none => (.error (.firestoreError "Failed to read back created user."), s2)
  | .error e => (.error e, s2)

/-! Compound operation. -/

/-- Read-back phase of create_asset_with_first_generation, run after the
transaction commits: fetch the created asset and generation (errors from
either read propagate), fail when either is missing, and otherwise return
the combined view AssetWithGenerations built from the dumped asset model
with the one generation attached. -/
def compound_read_back (s3 : Store) (tnow : Nat) (org_id project_id aid gid : String) :
    Except FsError AssetWithGenerations :=
  match get_asset s3 tnow org_id project_id aid with
  | .error e => .error e
  | .ok assetOpt =>
    match get_generation s3 tnow org_id project_id aid gid with
    | .error e => .error e
    | .ok genOpt =>
      match assetOpt, genOpt with
      | some am, some gm => .ok { toAsset := am, generations := some [gm] }
      | _, _ =>
        .error (.firestoreError
          "Failed to fetch created asset or generation after transaction.")

/-- FirestoreAccessor create_asset_with_first_generation: allocate the
asset id and the nested generation id (caller-supplied or fresh
client-generated), write both serialized documents in one store
transaction, wrap any transaction failure in a FirestoreError, then read
both documents back and return the combined AssetWithGenerations view.
abort models the underlying store aborting the transaction. -/
def create_asset_with_first_generation (s : Store) (tnow : Nat) (abort : Bool)
    (org_id project_id : String) (asset : Asset) (generation : Generation)
    (asset_id generation_id : Option String) :
    Except FsError AssetWithGenerations × Store :=
  let col := assetsCol org_id project_id
  let (aid, s1) :=
    match asset_id with
    | some i => (i, s)
    | none => s.freshId
  let (gid, s2) :=
    match generation_id with
    | some i => (i, s1)
    | none => s1.freshId
  let writes := [(col ++ [aid], asset.serialize),
                 (col ++ [aid, "generations", gid], generation.serialize)]
  match s2.runTransaction abort writes with
  | .error e =>
    (.error (.firestoreError ("Transaction failed creating asset and generation: " ++
      (match e with | .firestoreError m => m))), s2)
  | .ok s3 => (compound_read_back s3 tnow org_id project_id aid gid, s3)

/-- FirestoreAccessor get_generation_with_variants: read the generation,
list its variants, then rebuild a GenerationWithVariants from the dumped
generation with the variants attached and the id overwritten with the
requested generation id. -/
def get_generation_with_variants (s : Store) (tnow : Nat)
    (org_id project_id asset_id generation_id : String) :
    Except FsError (Option GenerationWithVariants) :=
  match get_generation s tnow org_id project_id asset_id generation_id with
  | .error e => .error e
  | .ok none => .ok none
  | .ok (some gen) =>
    match list_variants s tnow org_id project_id asset_id generation_id with
    | .error e => .error e
    | .ok variants =>
      .ok (some { toGeneration := { gen with id := some generation_id },
                  variants := some variants })

end FirestoreAccessor

/-! ## REST layer (src/api/index.py)

Handlers translate accessor results to HTTP semantics.  Each handler
returns its HTTP outcome, the store after the request, and the trace of
store operations it performed, so that statements about ordering (for
example that validation happens before any store call) are expressible.

A PATCH body is modelled as the list of fields the client set, where none
is JSON null.  The pydantic Update models additionally restrict which keys
and value shapes are accepted; the claims below depend only on the
set/null structure, which is what require_updates inspects. -/

structure HttpError where
  status_code : Nat
  detail : String
  deriving Repr, DecidableEq

abbrev UpdatePayload := List (String × Option Value)

/-- index.py require_updates: payload.dict(exclude_unset=True,
exclude_none=True) keeps exactly the fields that were set to a non-null
value; when nothing remains the request is rejected with HTTP 400 before
anything else happens. -/
def require_updates (payload : UpdatePayload) : Except HttpError Doc :=
  let updates := payload.filterMap (fun kv => kv.2.map (fun v => (kv.1, v)))
  if updates.isEmpty then
    .error ⟨400, "No fields provided for update."⟩
  else
    .ok updates

/-- One store operation performed while serving a request. -/
inductive StoreCall where
  | read (p : Path)
  | write (p : Path)
  | update (p : Path) (payload : Doc)
  | delete (p : Path)
  deriving Repr, DecidableEq

namespace Handlers

open FirestoreAccessor

/-! GET handlers.  Store errors surface as 500, missing documents as 404. -/

def get_organization_handler (s : Store) (tnow : Nat) (org_id : String) :
    Except HttpError Organization × List StoreCall :=
  match FirestoreAccessor.get_organization s tnow org_id with
  | .error (.firestoreError m) => (.error ⟨500, m⟩, [.read (orgsCol ++ [org_id])])
  | .ok none => (.error ⟨404, "Not found."⟩, [.read (orgsCol ++ [org_id])])
  | .ok (some o) => (.ok o, [.read (orgsCol ++ [org_id])])

def get_project_handler (s : Store) (tnow : Nat) (org_id project_id : String) :
    Except HttpError Project × List StoreCall :=
  match FirestoreAccessor.get_project s tnow org_id project_id with
  | .error (.firestoreError m) =>
    (.error ⟨500, m⟩, [.read (projectsCol org_id ++ [project_id])])
  | .ok none => (.error ⟨404, "Not found."⟩, [.read (projectsCol org_id ++ [project_id])])
  | .ok (some p) => (.ok p, [.read (projectsCol org_id ++ [project_id])])

def get_asset_handler (s : Store) (tnow : Nat) (org_id project_id asset_id : String) :
    Except HttpError Asset × List StoreCall :=
  match FirestoreAccessor.get_asset s tnow org_id project_id asset_id with
  | .error (.firestoreError m) =>
    (.error ⟨500, m⟩, [.read (assetsCol org_id project_id ++ [asset_id])])
  | .ok none =>
    (.error ⟨404, "Not found."⟩, [.read (assetsCol org_id project_id ++ [asset_id])])
  | .ok (some a) => (.ok a, [.read (assetsCol org_id project_id ++ [asset_id])])

def get_generation_handler (s : Store) (tnow : Nat)
    (org_id project_id asset_id generation_id : String) :
    Except HttpError Generation × List StoreCall :=
  match FirestoreAccessor.get_generation s tnow org_id project_id asset_id generation_id with
  | .error (.firestoreError m) =>
    (.error ⟨500, m⟩, [.read (generationsCol org_id project_id asset_id ++ [generation_id])])
  | .ok none =>
    (.error ⟨404, "Not found."⟩,
     [.read (generationsCol org_id project_id asset_id ++ [generation_id])])
  | .ok (some g) =>
    (.ok g, [.read (generationsCol org_id project_id asset_id ++ [generation_id])])

def get_variant_handler (s : Store) (tnow : Nat)
    (org_id project_id asset_id generation_id variant_id : String) :
    Except HttpError Variant × List StoreCall :=
  match FirestoreAccessor.get_variant s tnow org_id project_id asset_id generation_id
      variant_id with
  | .error (.firestoreError m) =>
    (.error ⟨500, m⟩,
     [.read (variantsCol org_id project_id asset_id generation_id ++ [variant_id])])
  | .ok none =>
    (.error ⟨404, "Not found."⟩,
     [.read (variantsCol org_id project_id asset_id generation_id ++ [variant_id])])
  | .ok (some v) =>
    (.ok v, [.read (variantsCol org_id project_id asset_id generation_id ++ [variant_id])])

def get_user_handler (s : Store) (tnow : Nat) (user_id : String) :
    Except HttpError User × List StoreCall :=
  match FirestoreAccessor.get_user s tnow user_id with
  | .error (.firestoreError m) => (.error ⟨500, m⟩, [.read (usersCol ++ [user_id])])
  | .ok none => (.error ⟨404, "Not found."⟩, [.read (usersCol ++ [user_id])])
  | .ok (some u) => (.ok u, [.read (usersCol ++ [user_id])])

/-- index.py get_theme calls accessor.get_theme, but firebase.py defines no
get_theme method: the attribute lookup raises AttributeError, which is not
a FirestoreError and therefore escapes the handler as an unhandled
exception (HTTP 500) before any store operation happens. -/
def get_theme_handler (_s : Store) (_tnow : Nat)
    (_org_id _project_id _theme_id : String) :
    Except HttpError Unit × List StoreCall :=
  (.error ⟨500, "AttributeError: FirestoreAccessor object has no attribute get_theme"⟩, [])

/-- index.py get_concept_image calls accessor.get_concept_image, which
firebase.py does not define; as with get_theme the AttributeError escapes
as an unhandled 500 before any store operation. -/
def get_concept_image_handler (_s : Store) (_tnow : Nat)
    (_org_id _project_id _image_id : String) :
    Except HttpError Unit × List StoreCall :=
  (.error ⟨500,
    "AttributeError: FirestoreAccessor object has no attribute get_concept_image"⟩, [])

/-! PATCH handlers.  Every PATCH handler first runs require_updates, then a
pre-existence GET (404 when missing), then the accessor update followed by
a read-back.  The variant, theme, concept-image and user PATCH handlers
reference accessor update methods that firebase.py does not define, so
after their pre-checks they fail with an unhandled AttributeError (500). -/

def update_organization_handler (s : Store) (tnow : Nat) (org_id : String)
    (payload : UpdatePayload) :
    Except HttpError Organization × Store × List StoreCall :=
  match require_updates payload with
  | .error e => (.error e, s, [])
  | .ok updates =>
    match get_organization_handler s tnow org_id with
    | (.error e, tr) => (.error e, s, tr)
    | (.ok _, tr) =>
      let r := FirestoreAccessor.update_organization s org_id updates
      let tr2 := tr ++ [.update (orgsCol ++ [org_id])
        (Doc.set "updated_at" Value.vSentinel updates)]
      match r.1 with
      | .error (.firestoreError m) => (.error ⟨500, m⟩, r.2, tr2)
      | .ok _ =>
        match FirestoreAccessor.get_organization r.2 tnow org_id with
        | .error (.firestoreError m) =>
          (.error ⟨500, m⟩, r.2, tr2 ++ [.read (orgsCol ++ [org_id])])
        | .ok none =>
          (.error ⟨500, "AssertionError: updated is not None"⟩, r.2,
           tr2 ++ [.read (orgsCol ++ [org_id])])
        | .ok (some m) => (.ok m, r.2, tr2 ++ [.read (orgsCol ++ [org_id])])

def update_project_handler (s : Store) (tnow : Nat) (org_id project_id : String)
    (payload : UpdatePayload) :
    Except HttpError Project × Store × List StoreCall :=
  match require_updates payload with
  | .error e => (.error e, s, [])
  | .ok updates =>
    match get_project_handler s tnow org_id project_id with
    | (.error e, tr) => (.error e, s, tr)
    | (.ok _, tr) =>
      let r := FirestoreAccessor.update_project s org_id project_id updates
      let tr2 := tr ++ [.update (projectsCol org_id ++ [project_id])
        (Doc.set "updated_at" Value.vSentinel updates)]
      match r.1 with
      | .error (.firestoreError m) => (.error ⟨500, m⟩, r.2, tr2)
      | .ok _ =>
        match FirestoreAccessor.get_project r.2 tnow org_id project_id with
        | .error (.firestoreError m) =>
          (.error ⟨500, m⟩, r.2, tr2 ++ [.read (projectsCol org_id ++ [project_id])])
        | .ok none =>
          (.error ⟨500, "AssertionError: updated is not None"⟩, r.2,
           tr2 ++ [.read (projectsCol org_id ++ [project_id])])
        | .ok (some m) => (.ok m, r.2, tr2 ++ [.read (projectsCol org_id ++ [project_id])])

def update_asset_handler (s : Store) (tnow : Nat) (org_id project_id asset_id : String)
    (payload : UpdatePayload) :
    Except HttpError Asset × Store × List StoreCall :=
  match require_updates payload with
  | .error e => (.error e, s, [])
  | .ok updates =>
    match get_asset_handler s tnow org_id project_id asset_id with
    | (.error e, tr) => (.error e, s, tr)
    | (.ok _, tr) =>
      let r := FirestoreAccessor.update_asset s org_id project_id asset_id updates
      let tr2 := tr ++ [.update (assetsCol org_id project_id ++ [asset_id])
        (Doc.set "updated_at" Value.vSentinel updates)]
      match r.1 with
      | .error (.firestoreError m) => (.error ⟨500, m⟩, r.2, tr2)
      | .ok _ =>
        match FirestoreAccessor.get_asset r.2 tnow org_id project_id asset_id with
        | .error (.firestoreError m) =>
          (.error ⟨500, m⟩, r.2, tr2 ++ [.read (assetsCol org_id project_id ++ [asset_id])])
        | .ok none =>
          (.error ⟨500, "AssertionError: updated is not None"⟩, r.2,
           tr2 ++ [.read (assetsCol org_id project_id ++ [asset_id])])
        | .ok (some m) =>
          (.ok m, r.2, tr2 ++ [.read (assetsCol org_id project_id ++ [asset_id])])

def update_generation_handler (s : Store) (tnow : Nat)
    (org_id project_id asset_id generation_id : String) (payload : UpdatePayload) :
    Except HttpError Generation × Store × List StoreCall :=
  match require_updates payload with
  | .error e => (.error e, s, [])
  | .ok updates =>
    match get_generation_handler s tnow org_id project_id asset_id generation_id with
    | (.error e, tr) => (.error e, s, tr)
    | (.ok _, tr) =>
      let r := FirestoreAccessor.update_generation s org_id project_id asset_id
        generation_id updates
      let tr2 := tr ++ [.update (generationsCol org_id project_id asset_id ++ [generation_id])
        (Doc.set "updated_at" Value.vSentinel updates)]
      match r.1 with
      | .error (.firestoreError m) => (.error ⟨500, m⟩, r.2, tr2)
      | .ok _ =>
        match FirestoreAccessor.get_generation r.2 tnow org_id project_id asset_id
            generation_id with
        | .error (.firestoreError m) =>
          (.error ⟨500, m⟩, r.2,
           tr2 ++ [.read (generationsCol org_id project_id asset_id ++ [generation_id])])
        | .ok none =>
          (.error ⟨500, "AssertionError: updated is not None"⟩, r.2,
           tr2 ++ [.read (generationsCol org_id project_id asset_id ++ [generation_id])])
        | .ok (some m) =>
          (.ok m, r.2,
           tr2 ++ [.read (generationsCol org_id project_id asset_id ++ [generation_id])])

/-- index.py update_variant: after the empty-payload check and the
pre-existence GET, the handler calls accessor.update_variant, which
firebase.py does not define; the AttributeError escapes as a 500 with no
store write. -/
def update_variant_handler (s : Store) (tnow : Nat)
    (org_id project_id asset_id generation_id variant_id : String)
    (payload : UpdatePayload) :
    Except HttpError Variant × Store × List StoreCall :=
  match require_updates payload with
  | .error e => (.error e, s, [])
  | .ok _ =>
    match get_variant_handler s tnow org_id project_id asset_id generation_id variant_id with
    | (.error e, tr) => (.error e, s, tr)
    | (.ok _, tr) =>
      (.error ⟨500,
        "AttributeError: FirestoreAccessor object has no attribute update_variant"⟩, s, tr)

/-- index.py update_theme: after the empty-payload check the pre-existence
GET itself already fails with the get_theme AttributeError. -/
def update_theme_handler (s : Store) (tnow : Nat)
    (org_id project_id theme_id : String) (payload : UpdatePayload) :
    Except HttpError Unit × Store × List StoreCall :=
  match require_updates payload with
  | .error e => (.error e, s, [])
  | .ok _ =>
    match get_theme_handler s tnow org_id project_id theme_id with
    | (.error e, tr) => (.error e, s, tr)
    | (.ok _, tr) =>
      (.error ⟨500,
        "AttributeError: FirestoreAccessor object has no attribute update_theme"⟩, s, tr)

/-- index.py update_concept_image: as with update_theme, the pre-existence
GET fails with the get_concept_image AttributeError. -/
def update_concept_image_handler (s : Store) (tnow : Nat)
    (org_id project_id image_id : String) (payload : UpdatePayload) :
    Except HttpError Unit × Store × List StoreCall :=
  match require_updates payload with
  | .error e => (.error e, s, [])
  | .ok _ =>
    match get_concept_image_handler s tnow org_id project_id image_id with
    | (.error e, tr) => (.error e, s, tr)
    | (.ok _, tr) =>
      (.error ⟨500,
        "AttributeError: FirestoreAccessor object has no attribute update_concept_image"⟩,
       s, tr)

/-- index.py update_user: after the empty-payload check and the
pre-existence GET, the handler calls accessor.update_user, which
firebase.py does not define; the AttributeError escapes as a 500 with no
store write. -/
def update_user_handler (s : Store) (tnow : Nat) (user_id : String)
    (payload : UpdatePayload) :
    Except HttpError User × Store × List StoreCall :=
  match require_updates payload with
  | .error e => (.error e, s, [])
  | .ok _ =>
    match get_user_handler s tnow user_id with
    | (.error e, tr) => (.error e, s, tr)
    | (.ok _, tr) =>
      (.error ⟨500,
        "AttributeError: FirestoreAccessor object has no attribute update_user"⟩, s, tr)

/-! POST handler for projects (representative create handler, used for the
write-time ancestor-id claim). -/

/-- index.py ProjectCreate: the request surface for creating a project.
Optional fields are none when unset or set to null (the handler serializes
with exclude_unset and exclude_none, which conflates the two). -/
structure ProjectCreatePayload where
  id : Option String := none
  name : String
  description : Option String := none
  settings : Option (List (String × String)) := none
  style_guide_markdown : Option String := none
  style_guide : Option StyleGuide := none
  asset_count : Option Int := none
  theme_count : Option Int := none
  deriving Repr, DecidableEq

/-- index.py build_firestore_model for Project: construct the model from
the request data (model defaults fill the absent fields), then force id,
created_at and updated_at to None. -/
def build_project_model (p : ProjectCreatePayload) : Project :=
  { id := none,
    org_id := none,
    project_id := none,
    created_at := none,
    updated_at := none,
    name := p.name,
    description := p.description,
    settings := match p.settings with | some v => some v | none => some [],
    style_guide_markdown := p.style_guide_markdown,
    style_guide := p.style_guide,
    asset_count := match p.asset_count with | some v => some v | none => some 0,
    theme_count := match p.theme_count with | some v => some v | none => some 0 }

/-- index.py create_project: pop the optional id from the request data,
build the model, apply the org_id path metadata onto the model
(apply_metadata), and delegate to the accessor create. -/
def create_project_handler (s : Store) (tnow : Nat) (org_id : String)
    (payload : ProjectCreatePayload) :
    Except HttpError Project × Store × List StoreCall :=
  let project_id := payload.id
  let model := { build_project_model payload with org_id := some org_id }
  let r := FirestoreAccessor.create_project s tnow org_id model project_id
  match r.1 with
  | .error (.firestoreError m) =>
    (.error ⟨500, m⟩, r.2,
     [.write (projectsCol org_id), .read (projectsCol org_id)])
  | .ok created =>
    (.ok created, r.2, [.write (projectsCol org_id), .read (projectsCol org_id)])

end Handlers

/-! ## Serialization round-trip and no-sentinel lemmas

fromDoc of a serialized model recovers the model exactly, except that the
id is replaced by the document id and a missing created_at triggers the
client-clock default factory.  Serialized models never contain the server
sentinel, so resolving a serialized payload at any store time is the
identity. -/

theorem organization_fromDoc_serialize (o : Organization) (docId : String) (t : Nat) :
    Organization.fromDoc docId t o.serialize =
      .ok { o with id := some docId, created_at := some (o.created_at.getD t) } := by
  simp [Organization.fromDoc, Organization.serialize, Organization.dictExclNone]

theorem project_fromDoc_serialize (p : Project) (docId : String) (t : Nat)
    (hs : p.settings.isSome) :
    Project.fromDoc docId t p.serialize =
      .ok { p with id := some docId, created_at := some (p.created_at.getD t) } := by
  obtain ⟨sv, hsv⟩ := Option.isSome_iff_exists.mp hs
  simp [Project.fromDoc, Project.serialize, Project.dictExclNone, hsv]

theorem asset_fromDoc_serialize (a : Asset) (docId : String) (t : Nat) :
    Asset.fromDoc docId t a.serialize =
      .ok { a with id := some docId, created_at := some (a.created_at.getD t) } := by
  simp [Asset.fromDoc, Asset.serialize, Asset.dictExclNone]

theorem generation_fromDoc_serialize (g : Generation) (docId : String) (t : Nat) :
    Generation.fromDoc docId t g.serialize =
      .ok { g with id := some docId, created_at := some (g.created_at.getD t) } := by
  simp [Generation.fromDoc, Generation.serialize, Generation.dictExclNone]

theorem asset_resolve_serialize (a : Asset) (t : Nat) :
    Doc.resolve t a.serialize = a.serialize := by
  simp [Asset.serialize, Asset.dictExclNone]

theorem generation_resolve_serialize (g : Generation) (t : Nat) :
    Doc.resolve t g.serialize = g.serialize := by
  simp [Generation.serialize, Generation.dictExclNone]

theorem organization_resolve_serialize (o : Organization) (t : Nat) :
    Doc.resolve t o.serialize = o.serialize := by
  simp [Organization.serialize, Organization.dictExclNone]

theorem resolve_sfield_styleGuide (t : Nat) (k : String) (x : Option StyleGuide) :
    Doc.resolve t (sfield k StyleGuide.toValue x) = sfield k StyleGuide.toValue x := by
  cases x <;> rfl

theorem project_resolve_serialize (p : Project) (t : Nat) :
    Doc.resolve t p.serialize = p.serialize := by
  simp [Project.serialize, Project.dictExclNone, resolve_sfield_styleGuide]

theorem variant_resolve_serialize (v : Variant) (t : Nat) :
    Doc.resolve t v.serialize = v.serialize := by
  simp [Variant.serialize, Variant.dictExclNone]

/-! Field lookups on a serialized Organization, used to reason about the
single-document create path without unfolding the serializer everywhere. -/

@[simp] theorem organization_hasKey_serialize_created_at (o : Organization) :
    Doc.hasKey "created_at" o.serialize = o.created_at.isSome := by
  cases hc : o.created_at <;>
    simp [Doc.hasKey, Organization.serialize, Organization.dictExclNone, hc]

@[simp] theorem organization_find_serialize_id (o : Organization) :
    Doc.find "id" o.serialize = none := by
  simp [Organization.serialize, Organization.dictExclNone]

@[simp] theorem organization_find_serialize_org_id (o : Organization) :
    Doc.find "org_id" o.serialize = o.org_id.map Value.vStr := by
  simp [Organization.serialize, Organization.dictExclNone]

@[simp] theorem organization_find_serialize_project_id (o : Organization) :
    Doc.find "project_id" o.serialize = o.project_id.map Value.vStr := by
  simp [Organization.serialize, Organization.dictExclNone]

@[simp] theorem organization_find_serialize_created_at (o : Organization) :
    Doc.find "created_at" o.serialize = o.created_at.map Value.vTime := by
  simp [Organization.serialize, Organization.dictExclNone]

@[simp] theorem organization_find_serialize_updated_at (o : Organization) :
    Doc.find "updated_at" o.serialize = o.updated_at.map Value.vTime := by
  simp [Organization.serialize, Organization.dictExclNone]

@[simp] theorem organization_find_serialize_name (o : Organization) :
    Doc.find "name" o.serialize = some (Value.vStr o.name) := by
  simp [Organization.serialize, Organization.dictExclNone]

@[simp] theorem organization_find_serialize_owner_user_id (o : Organization) :
    Doc.find "owner_user_id" o.serialize = o.owner_user_id.map Value.vStr := by
  simp [Organization.serialize, Organization.dictExclNone]

@[simp] theorem organization_find_serialize_plan_tier (o : Organization) :
    Doc.find "plan_tier" o.serialize = o.plan_tier.map Value.vStr := by
  simp [Organization.serialize, Organization.dictExclNone]

@[simp] theorem organization_find_serialize_members_summary (o : Organization) :
    Doc.find "members_summary" o.serialize = o.members_summary.map Value.vDictList := by
  simp [Organization.serialize, Organization.dictExclNone]

/-! Field lookups on a serialized Project. -/

@[simp] theorem project_hasKey_serialize_created_at (p : Project) :
    Doc.hasKey "created_at" p.serialize = p.created_at.isSome := by
  cases hc : p.created_at <;>
    simp [Doc.hasKey, Project.serialize, Project.dictExclNone, hc]

@[simp] theorem project_find_serialize_id (p : Project) :
    Doc.find "id" p.serialize = none := by
  simp [Project.serialize, Project.dictExclNone]

@[simp] theorem project_find_serialize_org_id (p : Project) :
    Doc.find "org_id" p.serialize = p.org_id.map Value.vStr := by
  simp [Project.serialize, Project.dictExclNone]

@[simp] theorem project_find_serialize_created_at (p : Project) :
    Doc.find "created_at" p.serialize = p.created_at.map Value.vTime := by
  simp [Project.serialize, Project.dictExclNone]

/-! ## Helper lemmas about the compound transaction -/

theorem path_ne_extend (c : Path) (x y z : String) : c ++ [x] ≠ c ++ [x, y, z] := by
  intro h
  have hl := congrArg List.length h
  simp [List.length_append] at hl

@[simp] theorem runTransaction_commit (s : Store) (w : List (Path × Doc)) :
    s.runTransaction false w = .ok (w.foldl (fun st p => st.setDoc p.1 p.2) s) := rfl

/-- Reading the asset back from the store state left by the committed
compound transaction yields the parsed serialized asset with the path
metadata attached. -/
theorem get_asset_after_txn (s : Store) (tnow : Nat) (o p aid gid : String)
    (a : Asset) (g : Generation) :
    FirestoreAccessor.get_asset
      ((s.setDoc (FirestoreAccessor.assetsCol o p ++ [aid]) a.serialize).setDoc
        (FirestoreAccessor.assetsCol o p ++ [aid, "generations", gid]) g.serialize)
      tnow o p aid =
      .ok (some (Asset.attach_metadata
        { a with id := some aid, created_at := some (a.created_at.getD tnow) }
        (some o) (some p))) := by
  unfold FirestoreAccessor.get_asset
  rw [getDoc_setDoc_ne _ _ _ (Ne.symm (path_ne_extend _ aid "generations" gid))]
  rw [getDoc_setDoc_self]
  simp only [asset_resolve_serialize, asset_fromDoc_serialize]

/-- Reading the generation back from the store state left by the committed
compound transaction yields the parsed serialized generation with the path
metadata attached. -/
theorem get_generation_after_txn (s : Store) (tnow : Nat) (o p aid gid : String)
    (a : Asset) (g : Generation) :
    FirestoreAccessor.get_generation
      ((s.setDoc (FirestoreAccessor.assetsCol o p ++ [aid]) a.serialize).setDoc
        (FirestoreAccessor.assetsCol o p ++ [aid, "generations", gid]) g.serialize)
      tnow o p aid gid =
      .ok (some (Generation.attach_metadata
        { g with id := some gid, created_at := some (g.created_at.getD tnow) }
        (some o) (some p) (some aid))) := by
  unfold FirestoreAccessor.get_generation
  have hpath : FirestoreAccessor.generationsCol o p aid ++ [gid] =
      FirestoreAccessor.assetsCol o p ++ [aid, "generations", gid] := by
    simp [FirestoreAccessor.generationsCol]
  rw [hpath, getDoc_setDoc_self]
  simp only [generation_resolve_serialize, generation_fromDoc_serialize]

theorem compound_read_back_after_txn (s : Store) (tnow : Nat) (o p aid gid : String)
    (a : Asset) (g : Generation) :
    FirestoreAccessor.compound_read_back
      ((s.setDoc (FirestoreAccessor.assetsCol o p ++ [aid]) a.serialize).setDoc
        (FirestoreAccessor.assetsCol o p ++ [aid, "generations", gid]) g.serialize)
      tnow o p aid gid =
      .ok { toAsset := Asset.attach_metadata
              { a with id := some aid, created_at := some (a.created_at.getD tnow) }
              (some o) (some p),
            generations := some [Generation.attach_metadata
              { g with id := some gid, created_at := some (g.created_at.getD tnow) }
              (some o) (some p) (some aid)] } := by
  unfold FirestoreAccessor.compound_read_back
  rw [get_asset_after_txn, get_generation_after_txn]

/-! ## Characterization of the single-document create path -/

/-- Complete characterization of create_organization with a caller-supplied
id: the returned entity is the input with the id attached, created_at kept
when the client model carried one (store-assigned otherwise), and
updated_at store-assigned; the store gains exactly the timestamped
document. -/
theorem create_organization_char (s : Store) (tnow : Nat) (o : Organization) (oid : String) :
    FirestoreAccessor.create_organization s tnow o (some oid) =
      (.ok { o with id := some oid,
                    created_at := some (o.created_at.getD s.now),
                    updated_at := some s.now },
       s.setDoc (FirestoreAccessor.orgsCol ++ [oid])
         (Doc.set "updated_at" Value.vSentinel
           (if Doc.hasKey "created_at" o.serialize then o.serialize
            else o.serialize ++ [("created_at", Value.vSentinel)]))) := by
  cases hc : o.created_at <;>
    simp [FirestoreAccessor.create_organization, FirestoreAccessor.create_doc,
      FirestoreAccessor.get_organization, Organization.fromDoc,
      organization_resolve_serialize, hc]

/-- Reading an organization back after create_organization returns exactly
the entity the create returned. -/
theorem get_organization_after_create (s : Store) (tnow : Nat) (o : Organization)
    (oid : String) :
    FirestoreAccessor.get_organization
      ((FirestoreAccessor.create_organization s tnow o (some oid)).2) tnow oid =
      .ok (some { o with id := some oid,
                         created_at := some (o.created_at.getD s.now),
                         updated_at := some s.now }) := by
  rw [create_organization_char]
  unfold FirestoreAccessor.get_organization
  rw [getDoc_setDoc_self]
  cases hc : o.created_at <;>
    simp [Organization.fromDoc, organization_resolve_serialize, hc]

/-- The store state after create_project with a caller-supplied id: exactly
one new document at the project path, holding the timestamped serialized
model. -/
theorem create_project_store_eq (s : Store) (tnow : Nat) (oid pid : String) (p : Project) :
    (FirestoreAccessor.create_project s tnow oid p (some pid)).2 =
      s.setDoc (FirestoreAccessor.projectsCol oid ++ [pid])
        (Doc.set "updated_at" Value.vSentinel
          (if Doc.hasKey "created_at" p.serialize then p.serialize
           else p.serialize ++ [("created_at", Value.vSentinel)])) := by
  have hcd : FirestoreAccessor.create_doc s (FirestoreAccessor.projectsCol oid)
      p.serialize (some pid) =
      (s.setDoc (FirestoreAccessor.projectsCol oid ++ [pid])
        (Doc.set "updated_at" Value.vSentinel
          (if Doc.hasKey "created_at" p.serialize then p.serialize
           else p.serialize ++ [("created_at", Value.vSentinel)])), pid) := rfl
  unfold FirestoreAccessor.create_project
  simp only []
  rw [hcd]
  cases hg : (s.setDoc (FirestoreAccessor.projectsCol oid ++ [pid])
      (Doc.set "updated_at" Value.vSentinel
        (if Doc.hasKey "created_at" p.serialize then p.serialize
         else p.serialize ++ [("created_at", Value.vSentinel)]))).getDoc
      (FirestoreAccessor.projectsCol oid ++ [pid]) with
  | none => simp only [hg]
  | some d =>
    simp only [hg]
    cases hf : Project.fromDoc pid tnow d <;> simp only [hf]

/-! ## Helper lemmas about PATCH validation and partial update -/

theorem require_updates_of_empty (payload : UpdatePayload)
    (h : payload.filterMap (fun kv => kv.2.map (fun v => (kv.1, v))) = []) :
    require_updates payload = .error ⟨400, "No fields provided for update."⟩ := by
  unfold require_updates
  simp [h]

/-- Every field issued by require_updates came from a non-null field of the
request body. -/
theorem require_updates_ok_mem {payload : UpdatePayload} {u : Doc}
    (hreq : require_updates payload = .ok u) :
    ∀ kv, kv ∈ u → (kv.1, some kv.2) ∈ payload := by
  unfold require_updates at hreq
  simp only [] at hreq
  split at hreq
  · simp at hreq
  · injection hreq with h
    subst h
    intro kv hkv
    rcases List.mem_filterMap.mp hkv with ⟨⟨k0, ov⟩, hin, hf⟩
    cases ov with
    | none => simp at hf
    | some v0 =>
      simp at hf
      rw [← hf]
      exact hin

/-- A JSON object has unique keys; under that assumption a key maps to one
value in the request body. -/
theorem nodup_keys_unique {l : UpdatePayload} (h : (l.map Prod.fst).Nodup)
    {k : String} {v1 v2 : Option Value} (h1 : (k, v1) ∈ l) (h2 : (k, v2) ∈ l) :
    v1 = v2 := by
  induction l with
  | nil => cases h1
  | cons hd tl ih =>
    simp only [List.map_cons, List.nodup_cons] at h
    rcases List.mem_cons.mp h1 with he1 | ht1 <;>
      rcases List.mem_cons.mp h2 with he2 | ht2
    · exact congrArg Prod.snd (he1.trans he2.symm)
    · exfalso
      apply h.1
      have hk : hd.1 = k := by rw [← he1]
      rw [hk]
      exact List.mem_map.mpr ⟨(k, v2), ht2, rfl⟩
    · exfalso
      apply h.1
      have hk : hd.1 = k := by rw [← he2]
      rw [hk]
      exact List.mem_map.mpr ⟨(k, v1), ht1, rfl⟩
    · exact ih h.2 ht1 ht2

theorem mem_doc_set {k k2 : String} {v v2 : Value} {d : Doc}
    (h : (k, v) ∈ Doc.set k2 v2 d) : (k = k2 ∧ v = v2) ∨ (k, v) ∈ d := by
  induction d with
  | nil =>
    simp [Doc.set] at h
    exact Or.inl h
  | cons hd tl ih =>
    obtain ⟨k3, v3⟩ := hd
    by_cases hk : k3 = k2
    · subst hk
      simp only [Doc.set, if_pos rfl] at h
      rcases List.mem_cons.mp h with he | ht
      · exact Or.inl (by simpa using he)
      · exact Or.inr (List.mem_cons_of_mem _ ht)
    · simp only [Doc.set, if_neg hk] at h
      rcases List.mem_cons.mp h with he | ht
      · exact Or.inr (by rw [he]; exact List.mem_cons_self _ _)
      · rcases ih ht with h2 | h2
        · exact Or.inl h2
        · exact Or.inr (List.mem_cons_of_mem _ h2)

theorem mem_doc_resolve {k : String} {v : Value} {t : Nat} {d : Doc}
    (h : (k, v) ∈ Doc.resolve t d) : ∃ v0, (k, v0) ∈ d ∧ v = v0.resolve t := by
  rcases List.mem_map.mp h with ⟨⟨k0, v0⟩, hin, heq⟩
  refine ⟨v0, ?_, ?_⟩
  · have hk : k0 = k := congrArg Prod.fst heq
    rw [← hk]
    exact hin
  · exact (congrArg Prod.snd heq).symm

/-- Merging an update that carries no entry for key k leaves the value at
k unchanged. -/
theorem find_merge_no_entry (k : String) (u d : Doc) (h : ∀ v, (k, v) ∉ u) :
    Doc.find k (Doc.merge d u) = Doc.find k d := by
  induction u generalizing d with
  | nil => rfl
  | cons hd tl ih =>
    obtain ⟨k2, v2⟩ := hd
    have hne : k2 ≠ k := by
      intro he
      subst he
      exact h v2 (List.mem_cons_self _ _)
    have htl : ∀ v, (k, v) ∉ tl := fun v hv => h v (List.mem_cons_of_mem _ hv)
    show Doc.find k (Doc.merge (Doc.set k2 v2 d) tl) = Doc.find k d
    rw [ih _ htl, find_set_ne k2 k hne]

/-- The accessor update leaves any key it does not carry (other than the
always-refreshed updated_at) unchanged in the stored document. -/
theorem update_organization_preserves (s : Store) (oid k : String) (u : Doc)
    (hnk : ∀ v, (k, v) ∉ u) (hku : k ≠ "updated_at") :
    (((FirestoreAccessor.update_organization s oid u).2).getDoc
        (FirestoreAccessor.orgsCol ++ [oid])).map (Doc.find k) =
      (s.getDoc (FirestoreAccessor.orgsCol ++ [oid])).map (Doc.find k) := by
  unfold FirestoreAccessor.update_organization FirestoreAccessor.update_doc
  simp only []
  rcases hg : s.getDoc (FirestoreAccessor.orgsCol ++ [oid]) with _ | d
  · unfold Store.updateDoc
    simp only [hg]
  · unfold Store.updateDoc
    simp only [hg]
    simp only [Store.getDoc, find?_putAssoc_self]
    simp only [Option.map_some', Option.some.injEq]
    apply find_merge_no_entry
    intro v hv
    rcases mem_doc_resolve hv with ⟨v0, hv0, _⟩
    rcases mem_doc_set hv0 with ⟨hk1, _⟩ | hmem
    · exact hku hk1
    · exact hnk v0 hmem

/-- Through the whole PATCH organization handler, a field that was null in
the request body is never written: its stored value is untouched whatever
the outcome of the request. -/
theorem update_organization_handler_preserves_null_keys
    (s : Store) (tnow : Nat) (oid : String) (payload : UpdatePayload) (k : String)
    (hnull : (k, none) ∈ payload) (hnodup : (payload.map Prod.fst).Nodup)
    (hku : k ≠ "updated_at") :
    (((Handlers.update_organization_handler s tnow oid payload).2.1).getDoc
        (FirestoreAccessor.orgsCol ++ [oid])).map (Doc.find k) =
      (s.getDoc (FirestoreAccessor.orgsCol ++ [oid])).map (Doc.find k) := by
  rcases hreq : require_updates payload with e | u
  · simp only [Handlers.update_organization_handler, hreq]
  · have hnk : ∀ v, (k, v) ∉ u := by
      intro v hv
      have hmem := require_updates_ok_mem hreq (k, v) hv
      exact Option.noConfusion (nodup_keys_unique hnodup hnull hmem)
    have hpres := update_organization_preserves s oid k u hnk hku
    simp only [Handlers.update_organization_handler, hreq]
    rcases hg : FirestoreAccessor.get_organization s tnow oid with e2 | og
    · rcases e2 with ⟨m⟩
      simp only [Handlers.get_organization_handler, hg]
    · rcases og with _ | o
      · simp only [Handlers.get_organization_handler, hg]
      · simp only [Handlers.get_organization_handler, hg]
        rcases hr : FirestoreAccessor.update_organization s oid u with ⟨res, s2⟩
        rw [hr] at hpres
        simp only [hr]
        rcases res with e3 | r0
        · rcases e3 with ⟨m⟩
          exact hpres
        · rcases hg2 : FirestoreAccessor.get_organization s2 tnow oid with e4 | og2
          · rcases e4 with ⟨m⟩
            simp only [hg2]
            exact hpres
          · rcases og2 with _ | o2 <;> simp only [hg2] <;> exact hpres

/-! ## Claims -/

/-- C1: create_asset_with_first_generation is atomic.  It writes the asset
document and the first generation document in a single store transaction:
when the store aborts the transaction, the result is a FirestoreError and
the store documents are exactly as before (neither document is created, no
partial state); when the transaction commits, the returned combined view
carries the asset and the one generation, and both documents are
subsequently retrievable via get_asset and get_generation. -/
theorem C1_create_asset_with_first_generation_atomic
    (s : Store) (tnow : Nat) (abort : Bool) (org_id project_id : String)
    (asset : Asset) (generation : Generation)
    (asset_id generation_id : Option String) :
    (abort = true →
      ((FirestoreAccessor.create_asset_with_first_generation s tnow abort org_id
        project_id asset generation asset_id generation_id).1 =
        Except.error (FsError.firestoreError
          ("Transaction failed creating asset and generation: " ++
            "409 transaction aborted"))) ∧
      ((FirestoreAccessor.create_asset_with_first_generation s tnow abort org_id
        project_id asset generation asset_id generation_id).2).docs = s.docs) ∧
    (abort = false →
      ∃ aid gid awg gm a2 g2,
        (FirestoreAccessor.create_asset_with_first_generation s tnow abort org_id
          project_id asset generation asset_id generation_id).1 = Except.ok awg ∧
        awg.id = some aid ∧
        awg.generations = some [gm] ∧ gm.id = some gid ∧
        FirestoreAccessor.get_asset
          ((FirestoreAccessor.create_asset_with_first_generation s tnow abort org_id
            project_id asset generation asset_id generation_id).2)
          tnow org_id project_id aid = Except.ok (some a2) ∧
        FirestoreAccessor.get_generation
          ((FirestoreAccessor.create_asset_with_first_generation s tnow abort org_id
            project_id asset generation asset_id generation_id).2)
          tnow org_id project_id aid gid = Except.ok (some g2)) := by
  constructor
  · intro ha
    subst ha
    rcases asset_id with _ | ai <;> rcases generation_id with _ | gi <;>
      simp only [FirestoreAccessor.create_asset_with_first_generation,
        Store.runTransaction, if_true, freshId_docs, and_self]
  · intro ha
    subst ha
    rcases asset_id with _ | ai <;> rcases generation_id with _ | gi <;>
      simp only [FirestoreAccessor.create_asset_with_first_generation,
        runTransaction_commit, List.foldl, compound_read_back_after_txn]
    · exact ⟨s.freshId.1, s.freshId.2.freshId.1, _, _, _, _, rfl, rfl, rfl, rfl,
        get_asset_after_txn _ _ _ _ _ _ _ _, get_generation_after_txn _ _ _ _ _ _ _ _⟩
    · exact ⟨s.freshId.1, gi, _, _, _, _, rfl, rfl, rfl, rfl,
        get_asset_after_txn _ _ _ _ _ _ _ _, get_generation_after_txn _ _ _ _ _ _ _ _⟩
    · exact ⟨ai, s.freshId.1, _, _, _, _, rfl, rfl, rfl, rfl,
        get_asset_after_txn _ _ _ _ _ _ _ _, get_generation_after_txn _ _ _ _ _ _ _ _⟩
    · exact ⟨ai, gi, _, _, _, _, rfl, rfl, rfl, rfl,
        get_asset_after_txn _ _ _ _ _ _ _ _, get_generation_after_txn _ _ _ _ _ _ _ _⟩

/-- C9: documents written by the compound create_asset_with_first_generation
transaction contain exactly the serialized model fields: no server-timestamp
sentinel is substituted inside the transaction, so the stored updated_at is
exactly the model value (absent when the client model carried none, never
the store clock) and the stored created_at is whatever value the client
model carried. -/
theorem C9_compound_create_no_sentinel_substitution
    (s : Store) (tnow : Nat) (org_id project_id : String)
    (asset : Asset) (generation : Generation) (aid gid : String) :
    ((FirestoreAccessor.create_asset_with_first_generation s tnow false org_id project_id
        asset generation (some aid) (some gid)).2).getDoc
      (FirestoreAccessor.assetsCol org_id project_id ++ [aid]) = some asset.serialize ∧
    ((FirestoreAccessor.create_asset_with_first_generation s tnow false org_id project_id
        asset generation (some aid) (some gid)).2).getDoc
      (FirestoreAccessor.assetsCol org_id project_id ++ [aid, "generations", gid]) =
      some generation.serialize ∧
    Doc.find "updated_at" asset.serialize = asset.updated_at.map Value.vTime ∧
    Doc.find "created_at" asset.serialize = asset.created_at.map Value.vTime ∧
    Doc.find "updated_at" generation.serialize = generation.updated_at.map Value.vTime ∧
    Doc.find "created_at" generation.serialize = generation.created_at.map Value.vTime := by
  refine ⟨?_, ?_, ?_, ?_, ?_, ?_⟩
  · simp only [FirestoreAccessor.create_asset_with_first_generation, runTransaction_commit,
      List.foldl]
    rw [getDoc_setDoc_ne _ _ _ (Ne.symm (path_ne_extend _ aid "generations" gid))]
    rw [getDoc_setDoc_self, asset_resolve_serialize]
  · simp only [FirestoreAccessor.create_asset_with_first_generation, runTransaction_commit,
      List.foldl]
    rw [getDoc_setDoc_self, generation_resolve_serialize]
  · simp [Asset.serialize, Asset.dictExclNone]
  · simp [Asset.serialize, Asset.dictExclNone]
  · simp [Generation.serialize, Generation.dictExclNone]
  · simp [Generation.serialize, Generation.dictExclNone]

/-- C7: every single-document create writes the serialized entity fields
(None fields omitted by serialization), sets created_at and updated_at in
the written payload to the server-timestamp sentinel unless created_at is
already present in the serialized data (in which case only updated_at is
set), then reads the document back and returns the hydrated entity; shown
for the shared create_doc helper together with create_organization as the
representative entity create (all eight creates compose create_doc the
same way). -/
theorem C7_single_create_sentinels_and_read_back
    (s : Store) (col : Path) (data : Doc) (docId : String)
    (tnow : Nat) (o : Organization) (oid : String) :
    (∃ d, ((FirestoreAccessor.create_doc s col data (some docId)).1).getDoc
        (col ++ [docId]) = some d ∧
      Doc.find "updated_at" d = some (Value.vTime s.now) ∧
      (Doc.hasKey "created_at" data = false →
        Doc.find "created_at" d = some (Value.vTime s.now)) ∧
      (Doc.hasKey "created_at" data = true →
        Doc.find "created_at" d = (Doc.find "created_at" data).map (Value.resolve s.now)) ∧
      (∀ k, k ≠ "updated_at" → k ≠ "created_at" →
        Doc.find k d = (Doc.find k data).map (Value.resolve s.now))) ∧
    (∃ m, (FirestoreAccessor.create_organization s tnow o (some oid)).1 = .ok m ∧
      FirestoreAccessor.get_organization
        ((FirestoreAccessor.create_organization s tnow o (some oid)).2) tnow oid =
        .ok (some m)) := by
  constructor
  · refine ⟨Doc.resolve s.now (Doc.set "updated_at" Value.vSentinel
      (if Doc.hasKey "created_at" data then data
       else data ++ [("created_at", Value.vSentinel)])), ?_, ?_, ?_, ?_, ?_⟩
    · unfold FirestoreAccessor.create_doc
      rw [getDoc_setDoc_self]
    · simp
    · intro hk
      have hfind : Doc.find "created_at" data = none := by
        simpa [Doc.hasKey, Option.isSome_iff_exists] using hk
      simp [FirestoreAccessor.create_doc, hk, hfind]
    · intro hk
      simp [FirestoreAccessor.create_doc, hk]
    · intro k hku hkc
      by_cases hk : Doc.hasKey "created_at" data <;>
        simp [FirestoreAccessor.create_doc, hk, hku, hkc, Ne.symm hku, Ne.symm hkc]
  · exact ⟨_, by rw [create_organization_char], get_organization_after_create s tnow o oid⟩

/-- C7 witness: the sentinel logic and read-back evaluated at concrete
inputs, including a payload that already carries created_at. -/
theorem C7_single_create_sentinels_and_read_back_witness :
    (∃ d, ((FirestoreAccessor.create_doc (Store.mk [] 5 0) ["organizations"]
        [("created_at", Value.vTime 100), ("name", Value.vStr "Acme")] (some "org_1")).1).getDoc
        (["organizations"] ++ ["org_1"]) = some d ∧
      Doc.find "updated_at" d = some (Value.vTime 5) ∧
      (Doc.hasKey "created_at" [("created_at", Value.vTime 100), ("name", Value.vStr "Acme")] = false →
        Doc.find "created_at" d = some (Value.vTime 5)) ∧
      (Doc.hasKey "created_at" [("created_at", Value.vTime 100), ("name", Value.vStr "Acme")] = true →
        Doc.find "created_at" d =
          (Doc.find "created_at" [("created_at", Value.vTime 100), ("name", Value.vStr "Acme")]).map
            (Value.resolve 5)) ∧
      (∀ k, k ≠ "updated_at" → k ≠ "created_at" →
        Doc.find k d =
          (Doc.find k [("created_at", Value.vTime 100), ("name", Value.vStr "Acme")]).map
            (Value.resolve 5))) ∧
    (∃ m, (FirestoreAccessor.create_organization (Store.mk [] 5 0) 100
        (Organization.make 100 "Acme") (some "org_1")).1 = .ok m ∧
      FirestoreAccessor.get_organization
        ((FirestoreAccessor.create_organization (Store.mk [] 5 0) 100
          (Organization.make 100 "Acme") (some "org_1")).2) 100 "org_1" =
        .ok (some m)) :=
  C7_single_create_sentinels_and_read_back (Store.mk [] 5 0) ["organizations"]
    [("created_at", Value.vTime 100), ("name", Value.vStr "Acme")] "org_1"
    100 (Organization.make 100 "Acme") "org_1"

/-- C4 counterexample: with the store clock at 5, a direct accessor create
of Organization(name Acme) built at client time 100 (the model default
factory stamps created_at with the client clock) persists and returns
created_at 100 while the store assigns updated_at 5.  So created_at is
client-supplied, and the readable document violates created_at less or
equal updated_at. -/
theorem C4_counterexample_client_created_at :
    (FirestoreAccessor.create_organization (Store.mk [] 5 0) 100
        (Organization.make 100 "Acme") (some "org_1")).1 =
      Except.ok { Organization.make 100 "Acme" with
        id := some "org_1", created_at := some 100, updated_at := some 5 } ∧
    ¬ ((100 : Nat) ≤ 5) := by
  exact ⟨rfl, by decide⟩

/-- C4 amended: updated_at is always store-assigned by the single-document
create; created_at is store-assigned exactly when the serialized entity
does not already carry one (as on the REST path, which nulls client
timestamps before the accessor call), and in that case the created document
satisfies created_at = updated_at, hence created_at less or equal
updated_at.  When the client model carries created_at it is persisted
unchanged. -/
theorem C4_amended_store_assigned_timestamps
    (s : Store) (tnow : Nat) (o : Organization) (oid : String) :
    ∃ m, (FirestoreAccessor.create_organization s tnow o (some oid)).1 = .ok m ∧
      m.updated_at = some s.now ∧
      m.created_at = some (o.created_at.getD s.now) ∧
      (o.created_at = none →
        ∃ c u, m.created_at = some c ∧ m.updated_at = some u ∧ c ≤ u) := by
  refine ⟨_, by rw [create_organization_char], rfl, rfl, ?_⟩
  intro hc
  exact ⟨s.now, s.now, by simp [hc], rfl, le_refl _⟩

/-- C4 amended witness: the store-assigned branch at concrete inputs. -/
theorem C4_amended_store_assigned_timestamps_witness :
    ∃ m, (FirestoreAccessor.create_organization (Store.mk [] 5 0) 100
        { Organization.make 100 "Acme" with created_at := none } (some "org_1")).1 = .ok m ∧
      m.updated_at = some 5 ∧
      m.created_at = some (({ Organization.make 100 "Acme" with
        created_at := none } : Organization).created_at.getD 5) ∧
      (({ Organization.make 100 "Acme" with created_at := none } : Organization).created_at = none →
        ∃ c u, m.created_at = some c ∧ m.updated_at = some u ∧ c ≤ u) :=
  C4_amended_store_assigned_timestamps (Store.mk [] 5 0) 100
    { Organization.make 100 "Acme" with created_at := none } "org_1"

/-- C8: an update request whose effective field map is empty fails with
HTTP 400 before any store call is made: for every one of the eight PATCH
handlers, with an empty-after-validation payload the result is the 400
validation error, the store is unchanged, and the trace of store
operations is empty — the empty-payload check runs before the pre-existence
GET and before the accessor update. -/
theorem C8_empty_update_rejected_before_any_store_call
    (s : Store) (tnow : Nat) (payload : UpdatePayload)
    (hempty : payload.filterMap (fun kv => kv.2.map (fun v => (kv.1, v))) = [])
    (org_id project_id asset_id generation_id variant_id theme_id image_id user_id : String) :
    Handlers.update_organization_handler s tnow org_id payload =
      (.error ⟨400, "No fields provided for update."⟩, s, []) ∧
    Handlers.update_project_handler s tnow org_id project_id payload =
      (.error ⟨400, "No fields provided for update."⟩, s, []) ∧
    Handlers.update_asset_handler s tnow org_id project_id asset_id payload =
      (.error ⟨400, "No fields provided for update."⟩, s, []) ∧
    Handlers.update_generation_handler s tnow org_id project_id asset_id generation_id
      payload = (.error ⟨400, "No fields provided for update."⟩, s, []) ∧
    Handlers.update_variant_handler s tnow org_id project_id asset_id generation_id
      variant_id payload = (.error ⟨400, "No fields provided for update."⟩, s, []) ∧
    Handlers.update_theme_handler s tnow org_id project_id theme_id payload =
      (.error ⟨400, "No fields provided for update."⟩, s, []) ∧
    Handlers.update_concept_image_handler s tnow org_id project_id image_id payload =
      (.error ⟨400, "No fields provided for update."⟩, s, []) ∧
    Handlers.update_user_handler s tnow user_id payload =
      (.error ⟨400, "No fields provided for update."⟩, s, []) := by
  have hreq := require_updates_of_empty payload hempty
  refine ⟨?_, ?_, ?_, ?_, ?_, ?_, ?_, ?_⟩ <;>
    simp only [Handlers.update_organization_handler, Handlers.update_project_handler,
      Handlers.update_asset_handler, Handlers.update_generation_handler,
      Handlers.update_variant_handler, Handlers.update_theme_handler,
      Handlers.update_concept_image_handler, Handlers.update_user_handler, hreq]

/-- C8 witness: a PATCH body consisting of one null-valued field is an
empty update; every handler rejects it with 400, unchanged store and no
store calls. -/
theorem C8_empty_update_rejected_before_any_store_call_witness :
    ([("name", (none : Option Value))].filterMap
      (fun kv => kv.2.map (fun v => (kv.1, v)))) = [] ∧
    Handlers.update_organization_handler (Store.mk [] 0 0) 0 "org_1" [("name", none)] =
      (.error ⟨400, "No fields provided for update."⟩, Store.mk [] 0 0, []) ∧
    Handlers.update_project_handler (Store.mk [] 0 0) 0 "org_1" "proj_1" [("name", none)] =
      (.error ⟨400, "No fields provided for update."⟩, Store.mk [] 0 0, []) ∧
    Handlers.update_asset_handler (Store.mk [] 0 0) 0 "org_1" "proj_1" "asset_1"
      [("name", none)] =
      (.error ⟨400, "No fields provided for update."⟩, Store.mk [] 0 0, []) ∧
    Handlers.update_generation_handler (Store.mk [] 0 0) 0 "org_1" "proj_1" "asset_1"
      "gen_1" [("name", none)] =
      (.error ⟨400, "No fields provided for update."⟩, Store.mk [] 0 0, []) ∧
    Handlers.update_variant_handler (Store.mk [] 0 0) 0 "org_1" "proj_1" "asset_1"
      "gen_1" "var_1" [("name", none)] =
      (.error ⟨400, "No fields provided for update."⟩, Store.mk [] 0 0, []) ∧
    Handlers.update_theme_handler (Store.mk [] 0 0) 0 "org_1" "proj_1" "theme_1"
      [("name", none)] =
      (.error ⟨400, "No fields provided for update."⟩, Store.mk [] 0 0, []) ∧
    Handlers.update_concept_image_handler (Store.mk [] 0 0) 0 "org_1" "proj_1" "img_1"
      [("name", none)] =
      (.error ⟨400, "No fields provided for update."⟩, Store.mk [] 0 0, []) ∧
    Handlers.update_user_handler (Store.mk [] 0 0) 0 "user_1" [("name", none)] =
      (.error ⟨400, "No fields provided for update."⟩, Store.mk [] 0 0, []) :=
  ⟨rfl, C8_empty_update_rejected_before_any_store_call (Store.mk [] 0 0) 0 [("name", none)]
    rfl "org_1" "proj_1" "asset_1" "gen_1" "var_1" "theme_1" "img_1" "user_1"⟩

/-- C10: PATCH fields whose value is null in the request body are dropped
by the exclude_none serialization in require_updates before any store
update is issued: every issued update field came from a non-null request
field, a request body containing only null-valued fields is rejected as an
empty update with HTTP 400, and through the whole PATCH organization
handler a null-valued request field can never clear the stored value — the
stored document is unchanged at that key whatever the request outcome. -/
theorem C10_null_update_fields_dropped
    (s : Store) (tnow : Nat) (oid k : String) (payload : UpdatePayload)
    (hnull : (k, none) ∈ payload) (hnodup : (payload.map Prod.fst).Nodup)
    (hku : k ≠ "updated_at") :
    (∀ u kv, require_updates payload = .ok u → kv ∈ u → (kv.1, some kv.2) ∈ payload) ∧
    ((∀ kv, kv ∈ payload → kv.2 = none) →
      require_updates payload = .error ⟨400, "No fields provided for update."⟩) ∧
    ((((Handlers.update_organization_handler s tnow oid payload).2.1).getDoc
        (FirestoreAccessor.orgsCol ++ [oid])).map (Doc.find k) =
      (s.getDoc (FirestoreAccessor.orgsCol ++ [oid])).map (Doc.find k)) := by
  refine ⟨fun u kv hr hm => require_updates_ok_mem hr kv hm, ?_, ?_⟩
  · intro hall
    apply require_updates_of_empty
    apply List.filterMap_eq_nil_iff.mpr
    intro kv hkv
    rw [hall kv hkv]
    rfl
  · exact update_organization_handler_preserves_null_keys s tnow oid payload k
      hnull hnodup hku

/-- C10 witness: a request that nulls plan_tier leaves the stored plan_tier
untouched on an existing organization document. -/
theorem C10_null_update_fields_dropped_witness :
    (("plan_tier", (none : Option Value)) ∈
      [("plan_tier", (none : Option Value))]) ∧
    (([("plan_tier", (none : Option Value))].map Prod.fst).Nodup) ∧
    ("plan_tier" ≠ "updated_at") ∧
    (∀ u kv, require_updates [("plan_tier", none)] = .ok u → kv ∈ u →
      (kv.1, some kv.2) ∈ [("plan_tier", (none : Option Value))]) ∧
    ((∀ kv, kv ∈ [("plan_tier", (none : Option Value))] → kv.2 = none) →
      require_updates [("plan_tier", none)] =
        .error ⟨400, "No fields provided for update."⟩) ∧
    ((((Handlers.update_organization_handler
        (Store.mk [(["organizations", "org_1"],
          [("name", Value.vStr "Acme"), ("plan_tier", Value.vStr "gold")])] 5 0)
        0 "org_1" [("plan_tier", none)]).2.1).getDoc
        (FirestoreAccessor.orgsCol ++ ["org_1"])).map (Doc.find "plan_tier") =
      ((Store.mk [(["organizations", "org_1"],
          [("name", Value.vStr "Acme"), ("plan_tier", Value.vStr "gold")])] 5 0).getDoc
        (FirestoreAccessor.orgsCol ++ ["org_1"])).map (Doc.find "plan_tier")) :=
  ⟨by decide, by decide, by decide,
   C10_null_update_fields_dropped
    (Store.mk [(["organizations", "org_1"],
      [("name", Value.vStr "Acme"), ("plan_tier", Value.vStr "gold")])] 5 0)
    0 "org_1" "plan_tier" [("plan_tier", none)]
    (by decide) (by decide) (by decide)⟩

/-- C5 counterexample: the REST create_project handler for POST under
organization org_1 persists the denormalized ancestor identifier into the
stored document: the handler copies org_id onto the model before the
accessor call, and serialization keeps every non-None field, so the stored
project document contains an org_id field beyond what the collection path
already encodes. -/
theorem C5_counterexample_org_id_persisted_at_write :
    (((Handlers.create_project_handler (Store.mk [] 5 0) 100 "org_1"
        { id := some "proj_1", name := "Demo" }).2.1).getDoc
        (FirestoreAccessor.projectsCol "org_1" ++ ["proj_1"])).map (Doc.find "org_id") =
      some (some (Value.vStr "org_1")) := by
  decide

/-- C5 amended: at write time the REST create handlers do persist the
denormalized ancestor identifiers (the handler applies org_id to the model
and the accessor serializes every non-None field into the stored
document); only the document id itself is never persisted beyond the path.
Ancestor ids are additionally (re)attached to the in-memory entity on
read. -/
theorem C5_amended_ancestor_ids_persisted
    (s : Store) (tnow : Nat) (org_id pid : String)
    (payload : Handlers.ProjectCreatePayload) (hid : payload.id = some pid) :
    ∃ d, ((Handlers.create_project_handler s tnow org_id payload).2.1).getDoc
        (FirestoreAccessor.projectsCol org_id ++ [pid]) = some d ∧
      Doc.find "org_id" d = some (Value.vStr org_id) ∧
      Doc.find "id" d = none := by
  have hstore : (Handlers.create_project_handler s tnow org_id payload).2.1 =
      (FirestoreAccessor.create_project s tnow org_id
        { Handlers.build_project_model payload with org_id := some org_id }
        payload.id).2 := by
    unfold Handlers.create_project_handler
    simp only []
    split <;> rfl
  rw [hstore, hid, create_project_store_eq]
  refine ⟨_, getDoc_setDoc_self _ _ _, ?_, ?_⟩ <;>
    simp [Handlers.build_project_model]

/-- C5 amended witness: the persisted ancestor id at concrete inputs. -/
theorem C5_amended_ancestor_ids_persisted_witness :
    ({ id := some "proj_1", name := "Demo" } : Handlers.ProjectCreatePayload).id =
      some "proj_1" ∧
    ∃ d, ((Handlers.create_project_handler (Store.mk [] 5 0) 100 "org_1"
        { id := some "proj_1", name := "Demo" }).2.1).getDoc
        (FirestoreAccessor.projectsCol "org_1" ++ ["proj_1"]) = some d ∧
      Doc.find "org_id" d = some (Value.vStr "org_1") ∧
      Doc.find "id" d = none :=
  ⟨rfl, C5_amended_ancestor_ids_persisted (Store.mk [] 5 0) 100 "org_1" "proj_1"
    { id := some "proj_1", name := "Demo" } rfl⟩

/-- The updated_at field read back after creating an organization that
itself specified updated_at 10, on a store whose clock is 5. -/
def c6_org_read_updated_at : Option (Option Nat) :=
  match FirestoreAccessor.get_organization
      ((FirestoreAccessor.create_organization (Store.mk [] 5 0) 100
        { Organization.make 100 "Acme" with updated_at := some 10 } (some "org_1")).2)
      100 "org_1" with
  | .ok (some m) => some m.updated_at
  | _ => none

/-- The org_id field read back after creating, under path organization
orgA, a project that itself specified org_id orgB. -/
def c6_project_read_org_id : Option (Option String) :=
  match FirestoreAccessor.get_project
      ((FirestoreAccessor.create_project (Store.mk [] 5 0) 100 "orgA"
        { Project.make 100 "Demo" with org_id := some "orgB" } (some "proj_1")).2)
      100 "orgA" "proj_1" with
  | .ok (some p) => some p.org_id
  | _ => none

/-- C6 counterexample: the round-trip is not exact on every specified
field.  First, an organization that specifies updated_at 10 reads back with
updated_at 5: the store refreshed the field.  Second, a project that
specifies org_id orgB but is created under path organization orgA reads
back with org_id orgA: the read-time metadata attachment overwrites the
stored value. -/
theorem C6_counterexample_roundtrip_not_exact :
    ({ Organization.make 100 "Acme" with updated_at := some 10 } : Organization).updated_at =
      some 10 ∧
    c6_org_read_updated_at = some (some 5) ∧
    c6_org_read_updated_at ≠ some (some 10) ∧
    ({ Project.make 100 "Demo" with org_id := some "orgB" } : Project).org_id = some "orgB" ∧
    c6_project_read_org_id = some (some "orgA") ∧
    c6_project_read_org_id ≠ some (some "orgB") := by
  decide

/-- C6 amended: for every organization value e and caller-supplied id,
Create(e) then Get(id) returns a value equal to e on every specified field
other than updated_at (which the store refreshes to its clock on every
create): the denormalized-ancestor fields, name, owner, plan tier and
members summary round-trip exactly, id is the assigned id, created_at is
kept when e specified it (store-assigned otherwise), and when e left
created_at unset the returned timestamps are both store-assigned with
created_at less or equal updated_at. -/
theorem C6_roundtrip_amended
    (s : Store) (tnow : Nat) (e : Organization) (oid : String) :
    ∃ m, FirestoreAccessor.get_organization
        ((FirestoreAccessor.create_organization s tnow e (some oid)).2) tnow oid =
        .ok (some m) ∧
      m.id = some oid ∧ m.org_id = e.org_id ∧ m.project_id = e.project_id ∧
      m.name = e.name ∧ m.owner_user_id = e.owner_user_id ∧
      m.plan_tier = e.plan_tier ∧ m.members_summary = e.members_summary ∧
      m.created_at = some (e.created_at.getD s.now) ∧ m.updated_at = some s.now ∧
      (e.created_at = none →
        ∃ c u, m.created_at = some c ∧ m.updated_at = some u ∧ c ≤ u) := by
  refine ⟨_, get_organization_after_create s tnow e oid,
    rfl, rfl, rfl, rfl, rfl, rfl, rfl, rfl, rfl, ?_⟩
  intro hc
  exact ⟨s.now, s.now, by simp [hc], rfl, le_refl _⟩

/-- C6 amended witness: the round-trip at concrete inputs. -/
theorem C6_roundtrip_amended_witness :
    ∃ m, FirestoreAccessor.get_organization
        ((FirestoreAccessor.create_organization (Store.mk [] 5 0) 100
          (Organization.make 100 "Acme") (some "org_1")).2) 100 "org_1" =
        .ok (some m) ∧
      m.id = some "org_1" ∧ m.org_id = (Organization.make 100 "Acme").org_id ∧
      m.project_id = (Organization.make 100 "Acme").project_id ∧
      m.name = (Organization.make 100 "Acme").name ∧
      m.owner_user_id = (Organization.make 100 "Acme").owner_user_id ∧
      m.plan_tier = (Organization.make 100 "Acme").plan_tier ∧
      m.members_summary = (Organization.make 100 "Acme").members_summary ∧
      m.created_at = some ((Organization.make 100 "Acme").created_at.getD 5) ∧
      m.updated_at = some 5 ∧
      ((Organization.make 100 "Acme").created_at = none →
        ∃ c u, m.created_at = some c ∧ m.updated_at = some u ∧ c ≤ u) :=
  C6_roundtrip_amended (Store.mk [] 5 0) 100 (Organization.make 100 "Acme") "org_1"

/-- The public document-accessor operations the FirestoreAccessor class of
firebase.py defines, by Python method name (private underscore helpers and
the constructor excluded). -/
def accessorMethods : List String :=
  ["create_organization", "get_organization", "list_organizations",
   "update_organization", "delete_organization",
   "create_project", "get_project", "list_projects", "update_project",
   "create_asset", "get_asset", "list_assets", "update_asset", "delete_asset",
   "create_generation", "get_generation", "list_generations", "update_generation",
   "create_variant", "get_variant", "list_variants",
   "create_theme", "list_themes",
   "create_concept_image", "list_concept_images",
   "create_user", "get_user", "list_users",
   "create_asset_with_first_generation", "get_generation_with_variants"]

/-- Every accessor method name the REST handlers of index.py invoke
(each accessor attribute access in the file), in handler order. -/
def indexAccessorCalls : List String :=
  ["create_organization", "list_organizations", "get_organization",
   "update_organization", "delete_organization",
   "create_project", "list_projects", "get_project", "update_project", "delete_project",
   "create_asset", "list_assets", "get_asset", "update_asset", "delete_asset",
   "create_generation", "list_generations", "get_generation", "update_generation",
   "delete_generation",
   "create_variant", "list_variants", "get_variant", "update_variant", "delete_variant",
   "create_theme", "list_themes", "get_theme", "update_theme", "delete_theme",
   "create_concept_image", "list_concept_images", "get_concept_image",
   "update_concept_image", "delete_concept_image",
   "create_user", "list_users", "get_user", "update_user", "delete_user"]

/-- C3: the uniform Create/Get/List/Update/Delete surface is incomplete.
Twelve accessor operations the REST handlers delegate to do not exist in
the FirestoreAccessor class; in particular the DELETE users handler calls
delete_user, which is not among the accessor methods, so that endpoint
raises AttributeError (an unhandled 500) instead of delegating to an
existing accessor operation and returning 204. -/
theorem C3_accessor_operations_missing :
    "delete_user" ∈ indexAccessorCalls ∧
    "delete_user" ∉ accessorMethods ∧
    indexAccessorCalls.filter (fun m => !(accessorMethods.contains m)) =
      ["delete_project", "delete_generation", "update_variant", "delete_variant",
       "get_theme", "update_theme", "delete_theme", "get_concept_image",
       "update_concept_image", "delete_concept_image", "update_user", "delete_user"] := by
  decide

/-! The C2 scenario of the spec: create organization Acme (org_1), project
Demo (proj_1), asset Hero (asset_1), generation with prompt a hero (gen_1,
status defaults to pending), update the status to completed, create two
variants with distinct image URLs, then call
get_generation_with_variants. -/

def scenario_store : Store :=
  let s1 := (FirestoreAccessor.create_organization (Store.mk [] 0 0) 0
    (Organization.make 0 "Acme") (some "org_1")).2
  let s2 := (FirestoreAccessor.create_project s1 0 "org_1"
    (Project.make 0 "Demo") (some "proj_1")).2
  let s3 := (FirestoreAccessor.create_asset s2 0 "org_1" "proj_1"
    (Asset.make 0 "Hero") (some "asset_1")).2
  let s4 := (FirestoreAccessor.create_generation s3 0 "org_1" "proj_1" "asset_1"
    (Generation.make 0 "a hero") (some "gen_1")).2
  let s5 := (FirestoreAccessor.update_generation s4 "org_1" "proj_1" "asset_1" "gen_1"
    [("status", Value.vStr "completed")]).2
  let s6 := (FirestoreAccessor.create_variant s5 0 "org_1" "proj_1" "asset_1" "gen_1"
    (Variant.make 0 "gs://example/variant_one.png") (some "var_1")).2
  (FirestoreAccessor.create_variant s6 0 "org_1" "proj_1" "asset_1" "gen_1"
    (Variant.make 0 "gs://example/variant_two.png") (some "var_2")).2

def scenario_result : Except FsError (Option GenerationWithVariants) :=
  FirestoreAccessor.get_generation_with_variants scenario_store 0
    "org_1" "proj_1" "asset_1" "gen_1"

/-- The variants of the combined view the scenario returns (empty on any
failure). -/
def scenario_variants : List Variant :=
  match scenario_result with
  | .ok (some gwv) => gwv.variants.getD []
  | _ => []

/-- The status of the generation the scenario returns. -/
def scenario_generation_status : Option GenerationStatus :=
  match scenario_result with
  | .ok (some gwv) => some gwv.status
  | _ => none

/-- C2 counterexample: the scenario does return exactly the two created
variants with matching URLs, but no returned variant has asset_id or
generation_id populated: the Variant model defines no such fields, the
attach_metadata hasattr guard drops those keyword arguments, and the API
dump of each returned variant carries no asset_id or generation_id key at
all (the lookups yield none rather than any populated value). -/
theorem C2_counterexample_variant_ancestor_ids_absent :
    scenario_variants.map Variant.image_url =
      ["gs://example/variant_one.png", "gs://example/variant_two.png"] ∧
    scenario_variants.map (fun v => Doc.find "asset_id" v.dictFull) = [none, none] ∧
    scenario_variants.map (fun v => Doc.find "generation_id" v.dictFull) = [none, none] := by
  decide

/-- C2 amended: after the scenario, get_generation_with_variants returns
the generation with status completed and exactly the two created variants
with the two created URLs; each returned variant has org_id and project_id
populated to the ancestor chain from the storage path, while asset_id and
generation_id are not populated because Variant declares no such fields:
the keys of each returned variant are exactly the declared Variant
fields. -/
theorem C2_amended_scenario_two_variants_org_project_populated :
    scenario_generation_status = some .completed ∧
    scenario_variants.length = 2 ∧
    scenario_variants.map Variant.image_url =
      ["gs://example/variant_one.png", "gs://example/variant_two.png"] ∧
    scenario_variants.map Variant.org_id = [some "org_1", some "org_1"] ∧
    scenario_variants.map Variant.project_id = [some "proj_1", some "proj_1"] ∧
    scenario_variants.map (fun v => (v.dictFull).map Prod.fst) =
      [["id", "org_id", "project_id", "created_at", "updated_at", "image_url",
        "thumbnail_url", "metadata", "is_selected", "feedback", "generated_at"],
       ["id", "org_id", "project_id", "created_at", "updated_at", "image_url",
        "thumbnail_url", "metadata", "is_selected", "feedback", "generated_at"]] := by
  decide

/-- C1 witness: the commit branch of the atomicity theorem evaluated at a
concrete store and concrete inputs. -/
theorem C1_create_asset_with_first_generation_atomic_witness :
    ∃ aid gid awg gm a2 g2,
      (FirestoreAccessor.create_asset_with_first_generation
        (Store.mk [] 0 0) 0 false "org_1" "proj_1"
        (Asset.make 0 "Hero") (Generation.make 0 "a hero")
        (some "asset_1") (some "gen_1")).1 = Except.ok awg ∧
      awg.id = some aid ∧
      awg.generations = some [gm] ∧ gm.id = some gid ∧
      FirestoreAccessor.get_asset
        ((FirestoreAccessor.create_asset_with_first_generation
          (Store.mk [] 0 0) 0 false "org_1" "proj_1"
          (Asset.make 0 "Hero") (Generation.make 0 "a hero")
          (some "asset_1") (some "gen_1")).2)
        0 "org_1" "proj_1" aid = Except.ok (some a2) ∧
      FirestoreAccessor.get_generation
        ((FirestoreAccessor.create_asset_with_first_generation
          (Store.mk [] 0 0) 0 false "org_1" "proj_1"
          (Asset.make 0 "Hero") (Generation.make 0 "a hero")
          (some "asset_1") (some "gen_1")).2)
        0 "org_1" "proj_1" aid gid = Except.ok (some g2) :=
  (C1_create_asset_with_first_generation_atomic (Store.mk [] 0 0) 0 false
    "org_1" "proj_1" (Asset.make 0 "Hero") (Generation.make 0 "a hero")
    (some "asset_1") (some "gen_1")).2 rfl

end AssetGen
